import Mathlib

/-!
Verification of the hierarchy-scoped widget data retrieval subsystem of the
dashboard repository.  The definitions below are a shallow embedding of

  * backend/routes/widgets.js - GET /widget-data/:widgetId and
    GET /widget-data/:widgetId/latest handlers (SQL queries modelled over an
    explicit relational store, integers as Int/Nat, SQL numeric as Rat);
  * frontend CustomLineChart.tsx - formatChartData (the series normalizer).

Modelling conventions, noted where they apply:
  * SQL ORDER BY and the JS array sort are modelled as a stable insertion
    sort (ties between equal sort keys are resolved by store order; the JS
    engine sort is stable as well);
  * SQL query failures and the resulting HTTP 500 path are modelled with
    Except; PostgreSQL evaluates the SELECT list only for emitted rows, so
    the value cast runs after LIMIT is applied;
  * JS objects used as string-keyed maps are modelled as association lists
    with update-in-place-or-append assignment, which matches JS property
    insertion order;
  * numeric payload values are Rat (float rounding is not modelled); the
    PostgreSQL numeric literals NaN and Infinity are not modelled.
-/

namespace Dash

/-- JS object assignment `obj[k] = v` on an association list: updates the
first binding of `k` in place, otherwise appends the new binding (JS
property insertion order). -/
def jsSet {K V : Type} [DecidableEq K] : List (K × V) → K → V → List (K × V)
  | [], k, v => [(k, v)]
  | (a, b) :: rest, k, v =>
    if a = k then (k, v) :: rest else (a, b) :: jsSet rest k v

/-- JS object read `obj[k]` on an association list. -/
def jsGet {K V : Type} [DecidableEq K] : List (K × V) → K → Option V
  | [], _ => none
  | (a, b) :: rest, k => if a = k then some b else jsGet rest k

/-- Insert `x` into a list assumed sorted by the key `f`, keeping stability:
`x` goes in front of the first element of key not smaller than its own. -/
def insertLe {α : Type} (f : α → Int) (x : α) : List α → List α
  | [] => [x]
  | y :: ys => if f x ≤ f y then x :: y :: ys else y :: insertLe f x ys

/-- Stable insertion sort by the integer key `f`; models SQL ORDER BY and
the JS stable array sort (ties keep store order). -/
def sortByLe {α : Type} (f : α → Int) : List α → List α
  | [] => []
  | x :: xs => insertLe f x (sortByLe f xs)

/-- Effectful map over a list in the Except monad, stopping at the first
failure; models a row-by-row computation that can raise a SQL error. -/
def mapValues {α β ε : Type} (f : α → Except ε β) : List α → Except ε (List β)
  | [] => .ok []
  | x :: xs =>
    match f x with
    | .error e => .error e
    | .ok y =>
      match mapValues f xs with
      | .error e => .error e
      | .ok ys => .ok (y :: ys)

/-! ### Text to number conversions (PostgreSQL casts and JS coercions) -/

/-- Value of a list of decimal digit characters. -/
def digitsVal (cs : List Char) : Nat :=
  cs.foldl (fun a c => a * 10 + (c.toNat - 48)) 0

/-- Mantissa `ip.fp` as a rational. -/
def decMantissa (ip fp : List Char) : Rat :=
  (digitsVal (ip ++ fp) : Rat) / (10 : Rat) ^ fp.length

/-- `m * 10 ^ e` for a possibly negative exponent. -/
def applyExp (m : Rat) (e : Int) : Rat :=
  if 0 ≤ e then m * (10 : Rat) ^ e.toNat else m / (10 : Rat) ^ (-e).toNat

/-- Exponent digits of a PostgreSQL numeric literal; only trailing spaces
may follow. -/
def pgExpDigits (sign : Int) (cs : List Char) : Option Int :=
  let ds := cs.takeWhile Char.isDigit
  let rest := cs.dropWhile Char.isDigit
  if ds.length = 0 then none
  else if rest.all (fun c => c = ' ') then some (sign * (digitsVal ds : Int))
  else none

/-- Tail of a PostgreSQL numeric literal after the mantissa: an optional
exponent part, then only spaces. Returns the exponent. -/
def pgNumExpTail : List Char → Option Int
  | [] => some 0
  | c :: rest =>
    if c = 'e' || c = 'E' then
      match rest with
      | d :: rest2 =>
        if d = '-' then pgExpDigits (-1) rest2
        else if d = '+' then pgExpDigits 1 rest2
        else pgExpDigits 1 (d :: rest2)
      | [] => none
    else if (c :: rest).all (fun x => x = ' ') then some 0
    else none

/-- Unsigned part of a PostgreSQL numeric literal: digits with an optional
decimal point (at least one digit overall), optional exponent. -/
def pgNumUnsigned (cs : List Char) : Option Rat :=
  let ip := cs.takeWhile Char.isDigit
  let rest1 := cs.dropWhile Char.isDigit
  match rest1 with
  | '.' :: rest2 =>
    let fp := rest2.takeWhile Char.isDigit
    let rest3 := rest2.dropWhile Char.isDigit
    if ip.length + fp.length = 0 then none
    else (pgNumExpTail rest3).map (fun e => applyExp (decMantissa ip fp) e)
  | _ =>
    if ip.length = 0 then none
    else (pgNumExpTail rest1).map (fun e => applyExp (digitsVal ip : Rat) e)

/-- Signed PostgreSQL numeric literal from a character list. -/
def pgNumFromChars : List Char → Option Rat
  | [] => none
  | c :: rest =>
    if c = '-' then (pgNumUnsigned rest).map Neg.neg
    else if c = '+' then pgNumUnsigned rest
    else pgNumUnsigned (c :: rest)

/-- Reading of a text value as PostgreSQL `numeric`; `none` means the cast
raises `invalid input syntax`. The special literals NaN and Infinity are
not modelled. -/
def pgParseNumeric (s : String) : Option Rat :=
  pgNumFromChars (s.toList.dropWhile (fun c => c = ' '))

/-- JS whitespace skipped by parseInt and parseFloat (common cases). -/
def jsIsSpace (c : Char) : Bool :=
  c = ' ' || c = '\t' || c = '\n' || c = '\r'

/-- Hexadecimal digit test. -/
def isHexDigitChar (c : Char) : Bool :=
  c.isDigit || ('a' ≤ c && c ≤ 'f') || ('A' ≤ c && c ≤ 'F')

/-- Value of one hexadecimal digit. -/
def hexDigitVal (c : Char) : Nat :=
  if c.isDigit then c.toNat - 48
  else if 'a' ≤ c && c ≤ 'f' then c.toNat - 87
  else c.toNat - 55

/-- Value of a list of hexadecimal digit characters. -/
def hexVal (cs : List Char) : Nat :=
  cs.foldl (fun a c => a * 16 + hexDigitVal c) 0

/-- Longest decimal digit prefix for JS parseInt; NaN when empty. -/
def jsIntDigits (sign : Int) (cs : List Char) : Option Int :=
  let ds := cs.takeWhile Char.isDigit
  if ds.length = 0 then none else some (sign * (digitsVal ds : Int))

/-- JS parseInt body after the sign: a 0x/0X prefix switches to base 16,
otherwise the longest decimal digit prefix is taken. -/
def jsIntHexOrDec (sign : Int) (cs : List Char) : Option Int :=
  match cs with
  | '0' :: x :: rest =>
    if x = 'x' || x = 'X' then
      let ds := rest.takeWhile isHexDigitChar
      if ds.length = 0 then none else some (sign * (hexVal ds : Int))
    else jsIntDigits sign ('0' :: x :: rest)
  | _ => jsIntDigits sign cs

/-- JS `parseInt(s)` (radix unspecified): skip leading whitespace, optional
sign, then the longest digit prefix; `none` models NaN. -/
def jsParseInt (s : String) : Option Int :=
  match s.toList.dropWhile jsIsSpace with
  | [] => none
  | c :: rest =>
    if c = '-' then jsIntHexOrDec (-1) rest
    else if c = '+' then jsIntHexOrDec 1 rest
    else jsIntHexOrDec 1 (c :: rest)

/-- Exponent digits for JS parseFloat; an incomplete exponent is ignored. -/
def jsFloatExpDigits (sign : Int) (cs : List Char) : Int :=
  let ds := cs.takeWhile Char.isDigit
  if ds.length = 0 then 0 else sign * (digitsVal ds : Int)

/-- Optional exponent prefix for JS parseFloat; trailing junk is ignored. -/
def jsFloatExp : List Char → Int
  | [] => 0
  | c :: rest =>
    if c = 'e' || c = 'E' then
      match rest with
      | d :: rest2 =>
        if d = '-' then jsFloatExpDigits (-1) rest2
        else if d = '+' then jsFloatExpDigits 1 rest2
        else jsFloatExpDigits 1 (d :: rest2)
      | [] => 0
    else 0

/-- Unsigned JS float literal prefix: digits, optional point and fraction
(at least one digit overall), optional exponent; junk after it is ignored. -/
def jsFloatUnsigned (cs : List Char) : Option Rat :=
  let ip := cs.takeWhile Char.isDigit
  let rest1 := cs.dropWhile Char.isDigit
  match rest1 with
  | '.' :: rest2 =>
    let fp := rest2.takeWhile Char.isDigit
    let rest3 := rest2.dropWhile Char.isDigit
    if ip.length + fp.length = 0 then none
    else some (applyExp (decMantissa ip fp) (jsFloatExp rest3))
  | _ =>
    if ip.length = 0 then none
    else some (applyExp (digitsVal ip : Rat) (jsFloatExp rest1))

/-- JS `parseFloat(s)`: longest numeric prefix after whitespace and an
optional sign; `none` models NaN (the Infinity literal is not modelled). -/
def jsParseFloat (s : String) : Option Rat :=
  match s.toList.dropWhile jsIsSpace with
  | [] => none
  | c :: rest =>
    if c = '-' then (jsFloatUnsigned rest).map Neg.neg
    else if c = '+' then jsFloatUnsigned rest
    else jsFloatUnsigned (c :: rest)

/-! ### Data model (relational store) -/

/-- A JSON value inside a telemetry payload or device metadata. -/
inductive JsonVal : Type where
  | num (q : Rat)
  | str (s : String)
  | boolean (b : Bool)
  | null
deriving DecidableEq

/-- A row of the `hierarchy` table. -/
structure HierarchyNode where
  id : Nat
  parent_id : Option Nat
deriving DecidableEq

/-- A row of the `device` table. -/
structure Device where
  id : Nat
  company_id : Nat
  device_type_id : Nat
  hierarchy_id : Option Nat
  serial_number : String
  metadata : List (String × JsonVal)
deriving DecidableEq

/-- A row of the `device_type` table. -/
structure DeviceType where
  id : Nat
  type_name : String
deriving DecidableEq

/-- A row of the `device_data` table (one telemetry sample). -/
structure DeviceData where
  device_id : Nat
  serial_number : String
  created_at : Int
  data : List (String × JsonVal)
deriving DecidableEq

/-- A row of the `device_latest` table (latest payload per device). -/
structure DeviceLatest where
  device_id : Nat
  serial_number : String
  updated_at : Int
  data : List (String × JsonVal)
deriving DecidableEq

/-- One entry of `data_source_config.seriesConfig`. -/
structure SeriesSpec where
  displayName : String
  dataSourceProperty : String
  unit : String
  propertyName : String
deriving DecidableEq

/-- The `data_source_config` value of a widget definition. -/
structure DataSourceConfig where
  deviceTypeId : Nat
  seriesConfig : List SeriesSpec
deriving DecidableEq

/-- A row of `widget_definitions` (joined with its widget type). -/
structure WidgetDef where
  id : Nat
  config : DataSourceConfig
deriving DecidableEq

/-- The relational store visible to the read path. -/
structure Store where
  widgets : List WidgetDef
  devices : List Device
  device_types : List DeviceType
  device_data : List DeviceData
  device_latest : List DeviceLatest
  hierarchy : List HierarchyNode
deriving DecidableEq

/-! ### The widget-data query (backend/routes/widgets.js lines 551-595) -/

/-- The `timeFilter` if-chain of the handler: the five recognized timeRange
values map to a trailing window (in seconds), anything else to no filter. -/
def timeWindow (tr : String) : Option Int :=
  if tr = "1h" then some 3600
  else if tr = "6h" then some 21600
  else if tr = "24h" then some 86400
  else if tr = "7d" then some 604800
  else if tr = "30d" then some 2592000
  else none

/-- The time predicate applied to `dd.created_at` by the interpolated
`timeFilter` fragment; an unrecognized timeRange imposes nothing. -/
def timePred (tr : String) (now t : Int) : Bool :=
  match timeWindow tr with
  | none => true
  | some w => decide (now - w ≤ t)

/-- SQL `dd.data ? key`: the payload contains the key. -/
def hasKey (data : List (String × JsonVal)) (k : String) : Bool :=
  data.any (fun kv => kv.1 = k)

/-- PostgreSQL `(value)::numeric` on the text extracted by `->>` from one
JSON value: JSON null extracts to SQL NULL, numbers round-trip through
their decimal text, strings must lex as numeric, booleans never do.
`Except.error` is the `invalid input syntax` failure; `Option.none` in the
payload position never reaches here. -/
def pgCastNumeric : JsonVal → Except String (Option Rat)
  | .null => .ok none
  | .num q => .ok (some q)
  | .str s =>
    match pgParseNumeric s with
    | some q => .ok (some q)
    | none => .error "invalid input syntax for type numeric"
  | .boolean _ => .error "invalid input syntax for type numeric"

/-- The SELECT expression `COALESCE((dd.data->>key)::numeric, 0)`: an
absent key or a JSON null gives SQL NULL, which COALESCE turns into 0; a
failing cast aborts the query. -/
def sqlValue (data : List (String × JsonVal)) (key : String) : Except String Rat :=
  match data.find? (fun kv => kv.1 = key) with
  | none => .ok 0
  | some kv => (pgCastNumeric kv.2).map (fun o => o.getD 0)

/-- A data point of the widget-data response (timestamp, serialNumber,
value); the JS mapping parseFloat(row.value) is the identity on the numeric
the store returns. -/
structure Point where
  timestamp : Int
  serialNumber : String
  value : Rat
deriving DecidableEq

/-- The FROM/WHERE/ORDER BY part of `seriesQuery`: device_data joined to
device on device_id, restricted to the company, the device type, the time
window and payloads containing the series field key, ordered by created_at
ascending. -/
def selectedRows (st : Store) (now : Int) (companyId deviceTypeId : Nat)
    (key timeRange : String) : List (DeviceData × Device) :=
  sortByLe (fun r => r.1.created_at)
    ((st.device_data.flatMap (fun dd =>
        (st.devices.filter (fun d => dd.device_id = d.id)).map (fun d => (dd, d)))).filter
      (fun r =>
        decide (r.2.company_id = companyId) && decide (r.2.device_type_id = deviceTypeId)
          && timePred timeRange now r.1.created_at && hasKey r.1.data key))

/-- `seriesQuery` with its LIMIT parameter: a NaN limit fails to bind as
bigint, a negative limit is rejected by PostgreSQL, otherwise the first
`limit` ordered rows are emitted with their cast values. -/
def seriesQuery (st : Store) (now : Int) (companyId deviceTypeId : Nat)
    (key timeRange : String) : Option Int → Except String (List Point)
  | none => .error "invalid input syntax for type bigint"
  | some l =>
    if l < 0 then .error "LIMIT must not be negative"
    else
      mapValues
        (fun r => (sqlValue r.1.data key).map
          (fun v => ⟨r.1.created_at, r.1.serial_number, v⟩))
        ((selectedRows st now companyId deviceTypeId key timeRange).take l.toNat)

/-- One entry of the widget-data response data object. -/
structure SeriesOut where
  data : List Point
  unit : String
  propertyName : String
deriving DecidableEq

/-- The per-series loop of the handler: one `seriesQuery` per configured
series, results written into the `seriesData` object under the displayName
key; the second component counts telemetry queries issued (the loop stops
at the first store failure). -/
def fetchAll (st : Store) (now : Int) (companyId deviceTypeId : Nat)
    (timeRange : String) (limitInt : Option Int) :
    List SeriesSpec → List (String × SeriesOut) → Nat →
    Except String (List (String × SeriesOut)) × Nat
  | [], acc, n => (.ok acc, n)
  | s :: rest, acc, n =>
    match seriesQuery st now companyId deviceTypeId s.dataSourceProperty timeRange limitInt with
    | .error e => (.error e, n + 1)
    | .ok pts =>
      fetchAll st now companyId deviceTypeId timeRange limitInt rest
        (jsSet acc s.displayName ⟨pts, s.unit, s.propertyName⟩) (n + 1)

/-- The JSON response of the widget-data endpoint (the fields the spec
talks about; res.json defaults to status 200). -/
structure ApiResponse where
  status : Nat
  success : Bool
  message : Option String
  data : Option (List (String × SeriesOut))
  config : Option DataSourceConfig
  errorDetail : Option String
deriving DecidableEq

/-- GET /widget-data/:widgetId. The handler destructures only `limit`
(default 200) and `timeRange` (default 24h) from req.query; the
hierarchyId and deviceId query parameters are never read. Returns the
response together with the number of telemetry queries issued. -/
def widgetData (st : Store) (now : Int) (companyId widgetId : Nat)
    (limitQ timeRangeQ : Option String) (hierarchyIdQ deviceIdQ : Option Nat) :
    ApiResponse × Nat :=
  let timeRange := timeRangeQ.getD "24h"
  let limitStr := limitQ.getD "200"
  match st.widgets.find? (fun w => w.id = widgetId) with
  | none => (⟨404, false, some "Widget not found", none, none, none⟩, 0)
  | some w =>
    if w.config.seriesConfig.isEmpty then
      (⟨200, true, some "No series configured", some [], some w.config, none⟩, 0)
    else
      match fetchAll st now companyId w.config.deviceTypeId timeRange
          (jsParseInt limitStr) w.config.seriesConfig [] 0 with
      | (.ok data, n) => (⟨200, true, none, some data, some w.config, none⟩, n)
      | (.error e, n) =>
        (⟨500, false, some "Failed to fetch widget data", none, none, some e⟩, n)

/-! ### The latest-data query (backend/routes/widgets.js lines 616-701) -/

/-- A row of the latest-data response; `location` keeps the raw JSON value
of metadata->>'location' (none when absent or null). -/
structure LatestPoint where
  timestamp : Int
  serialNumber : String
  value : Rat
  location : Option JsonVal
  deviceType : String
deriving DecidableEq

/-- JS `parseFloat(row.value) || 0` applied to the text `dl.data->>key`:
an absent key or null yields NaN hence 0, numbers round-trip, strings use
the parseFloat prefix rule with NaN collapsed to 0, booleans give 0. -/
def jsValueOf (data : List (String × JsonVal)) (key : String) : Rat :=
  match data.find? (fun kv => kv.1 = key) with
  | none => 0
  | some kv =>
    match kv.2 with
    | .null => 0
    | .num q => q
    | .str s => (jsParseFloat s).getD 0
    | .boolean _ => 0

/-- `d.metadata->>'location'` kept as the raw JSON value. -/
def locationOf (metadata : List (String × JsonVal)) : Option JsonVal :=
  match metadata.find? (fun kv => kv.1 = "location") with
  | none => none
  | some kv => match kv.2 with | .null => none | v => some v

/-- FROM/WHERE/ORDER BY of the latest query: device_latest joined to
device and device_type, restricted to company and device type, ordered by
updated_at descending. No LIMIT and no time filter. -/
def latestSelectedRows (st : Store) (companyId deviceTypeId : Nat) :
    List (DeviceLatest × Device × DeviceType) :=
  sortByLe (fun r => -r.1.updated_at)
    ((st.device_latest.flatMap (fun dl =>
        (st.devices.filter (fun d => dl.device_id = d.id)).flatMap (fun d =>
          (st.device_types.filter (fun dt => d.device_type_id = dt.id)).map
            (fun dt => (dl, d, dt))))).filter
      (fun r =>
        decide (r.2.1.company_id = companyId) && decide (r.2.1.device_type_id = deviceTypeId)))

/-- The formattedData rows of the latest handler for one series key. -/
def latestQueryOut (st : Store) (companyId deviceTypeId : Nat) (key : String) :
    List LatestPoint :=
  (latestSelectedRows st companyId deviceTypeId).map (fun r =>
    ⟨r.1.updated_at, r.1.serial_number, jsValueOf r.1.data key,
      locationOf r.2.1.metadata, r.2.2.type_name⟩)

/-- One entry of the latest-data response data object. -/
structure LatestOut where
  latest : List LatestPoint
  aggregatedValue : Option Rat
  count : Nat
  unit : String
deriving DecidableEq

/-- The aggregation step: mean of the values when any rows exist. -/
def aggregate (pts : List LatestPoint) : Option Rat :=
  if pts.isEmpty then none
  else some ((pts.map (fun p => p.value)).sum / (pts.length : Rat))

/-- The JSON response of the latest-data endpoint. -/
structure LatestResponse where
  status : Nat
  success : Bool
  message : Option String
  data : Option (List (String × LatestOut))
  config : Option DataSourceConfig
deriving DecidableEq

/-- GET /widget-data/:widgetId/latest: per configured series one latest
query, keyed by displayName; the count again tallies telemetry queries. -/
def latestData (st : Store) (companyId widgetId : Nat) : LatestResponse × Nat :=
  match st.widgets.find? (fun w => w.id = widgetId) with
  | none => (⟨404, false, some "Widget not found", none, none⟩, 0)
  | some w =>
    if w.config.seriesConfig.isEmpty then
      (⟨200, true, some "No series configured", none, none⟩, 0)
    else
      let data := w.config.seriesConfig.foldl (fun acc s =>
        let pts := latestQueryOut st companyId w.config.deviceTypeId s.dataSourceProperty
        jsSet acc s.displayName ⟨pts, aggregate pts, pts.length, s.unit⟩) []
      (⟨200, true, none, some data, some w.config⟩, w.config.seriesConfig.length)

/-! ### Hierarchy subtree resolution -/

/-- One expansion step of the recursive CTE: add every node whose parent is
already in the set. -/
def subtreeStep (nodes : List HierarchyNode) (s : List Nat) : List Nat :=
  s ++ (nodes.filter (fun n =>
    !s.contains n.id &&
      match n.parent_id with
      | some p => s.contains p
      | none => false)).map (fun n => n.id)

/-- Modelled from the spec: the Hierarchy Resolver `resolveSubtree` (spec
section 4.1) is absent from the shipped backend sources (only the repo
documentation shows its recursive CTE), so it is modelled from the spec
words: the transitive closure of parent-to-child edges starting from
`rootId`, inclusive; an id with no matching node yields the empty set. -/
def resolveSubtree (nodes : List HierarchyNode) (rootId : Nat) : List Nat :=
  let base := if nodes.any (fun n => n.id = rootId) then [rootId] else []
  (List.range nodes.length).foldl (fun s _ => subtreeStep nodes s) base

/-! ### The frontend series normalizer (CustomLineChart.tsx formatChartData) -/

/-- One series as received by formatChartData: its data points (timestamp
already through Date.getTime, value) and its unit. -/
structure FrontSeries where
  data : List (Int × Rat)
  unit : String
deriving DecidableEq

/-- The inner statement pair of formatChartData: ensure the row for this
timestamp exists, then assign the series column on it. -/
def insertPoint (m : List (Int × List (String × Rat))) (name : String)
    (t : Int) (v : Rat) : List (Int × List (String × Rat)) :=
  jsSet m t (jsSet ((jsGet m t).getD []) name v)

/-- The inner forEach over one series' points. -/
def processSeries (m : List (Int × List (String × Rat))) (name : String)
    (pts : List (Int × Rat)) : List (Int × List (String × Rat)) :=
  pts.foldl (fun m2 pt => insertPoint m2 name pt.1 pt.2) m

/-- The dataMap built by the two nested forEach loops. -/
def buildMap (input : List (String × FrontSeries)) :
    List (Int × List (String × Rat)) :=
  input.foldl (fun m p => processSeries m p.1 p.2.data) []

/-- The value returned by formatChartData. -/
structure FrontResult where
  data : List (Int × List (String × Rat))
  keys : List String
  units : List (String × String)
deriving DecidableEq

/-- formatChartData: rows of the dataMap sorted ascending by timestamp,
series keys in input order, units per series. -/
def formatChartData (input : List (String × FrontSeries)) : FrontResult :=
  ⟨sortByLe (fun r => r.1) (buildMap input),
    input.map Prod.fst,
    input.map (fun p => (p.1, p.2.unit))⟩

/-! ### A spec-side comparison query for the timeRange fallback -/

/-- Stated from the spec words for claim C5: the same series fetch with no
time restriction at all (all matching history up to the limit). -/
def seriesQueryAllHistory (st : Store) (companyId deviceTypeId : Nat)
    (key : String) : Option Int → Except String (List Point)
  | none => .error "invalid input syntax for type bigint"
  | some l =>
    if l < 0 then .error "LIMIT must not be negative"
    else
      mapValues
        (fun r => (sqlValue r.1.data key).map
          (fun v => ⟨r.1.created_at, r.1.serial_number, v⟩))
        ((sortByLe (fun r => r.1.created_at)
          ((st.device_data.flatMap (fun dd =>
              (st.devices.filter (fun d => dd.device_id = d.id)).map (fun d => (dd, d)))).filter
            (fun r =>
              decide (r.2.company_id = companyId)
                && decide (r.2.device_type_id = deviceTypeId)
                && hasKey r.1.data key))).take l.toNat)

/-! ### Lemmas about jsSet and jsGet -/

theorem jsGet_jsSet {K V : Type} [DecidableEq K] (l : List (K × V)) (k k' : K) (v : V) :
    jsGet (jsSet l k v) k' = if k' = k then some v else jsGet l k' := by
  induction l with
  | nil =>
    by_cases h : k' = k
    · subst h; simp [jsSet, jsGet]
    · simp [jsSet, jsGet, h, Ne.symm h]
  | cons hd tl ih =>
    obtain ⟨a, b⟩ := hd
    by_cases hak : a = k
    · subst hak
      by_cases h : k' = a
      · subst h; simp [jsSet, jsGet]
      · simp [jsSet, jsGet, h, Ne.symm h]
    · by_cases h2 : a = k'
      · subst h2
        simp [jsSet, jsGet, hak]
      · simp [jsSet, jsGet, hak, h2, ih]

theorem keys_jsSet {K V : Type} [DecidableEq K] (l : List (K × V)) (k : K) (v : V) :
    (jsSet l k v).map Prod.fst =
      if k ∈ l.map Prod.fst then l.map Prod.fst else l.map Prod.fst ++ [k] := by
  induction l with
  | nil => simp [jsSet]
  | cons hd tl ih =>
    obtain ⟨a, b⟩ := hd
    by_cases hak : a = k
    · subst hak
      simp [jsSet]
    · by_cases hmem : k ∈ tl.map Prod.fst <;>
        simp [jsSet, hak, Ne.symm hak, hmem, ih]

theorem mem_keys_jsSet {K V : Type} [DecidableEq K] (l : List (K × V)) (k k' : K) (v : V) :
    k' ∈ (jsSet l k v).map Prod.fst ↔ k' ∈ l.map Prod.fst ∨ k' = k := by
  rw [keys_jsSet]
  by_cases hmem : k ∈ l.map Prod.fst
  · simp only [hmem, if_pos]
    constructor
    · exact fun h => Or.inl h
    · rintro (h | h)
      · exact h
      · exact h ▸ hmem
  · simp [hmem]

theorem nodup_keys_jsSet {K V : Type} [DecidableEq K] (l : List (K × V)) (k : K) (v : V)
    (h : (l.map Prod.fst).Nodup) : ((jsSet l k v).map Prod.fst).Nodup := by
  rw [keys_jsSet]
  by_cases hmem : k ∈ l.map Prod.fst
  · simpa [hmem] using h
  · simp [hmem, List.nodup_append, h]

theorem mem_jsSet {K V : Type} [DecidableEq K] (l : List (K × V)) (k : K) (v : V)
    (p : K × V) (h : p ∈ jsSet l k v) : p ∈ l ∨ p = (k, v) := by
  induction l with
  | nil =>
    simp only [jsSet, List.mem_singleton] at h
    exact Or.inr h
  | cons hd tl ih =>
    obtain ⟨a, b⟩ := hd
    by_cases hak : a = k
    · subst hak
      simp only [jsSet, if_pos rfl, if_true, List.mem_cons] at h
      rcases h with h1 | h1
      · exact Or.inr h1
      · exact Or.inl (List.mem_cons_of_mem _ h1)
    · simp only [jsSet, if_neg hak, List.mem_cons] at h
      rcases h with h1 | h1
      · exact Or.inl (by rw [h1]; exact List.mem_cons_self _ _)
      · rcases ih h1 with h2 | h2
        · exact Or.inl (List.mem_cons_of_mem _ h2)
        · exact Or.inr h2

/-! ### Lemmas about the stable sort -/

theorem mem_insertLe {α : Type} (f : α → Int) (x a : α) (l : List α) :
    a ∈ insertLe f x l ↔ a = x ∨ a ∈ l := by
  induction l with
  | nil => simp [insertLe]
  | cons y ys ih =>
    by_cases h : f x ≤ f y
    · simp [insertLe, h]
    · simp only [insertLe, if_neg h, List.mem_cons, ih]
      tauto

theorem perm_insertLe {α : Type} (f : α → Int) (x : α) (l : List α) :
    (insertLe f x l).Perm (x :: l) := by
  induction l with
  | nil => simp [insertLe]
  | cons y ys ih =>
    by_cases h : f x ≤ f y
    · simp [insertLe, h]
    · simp only [insertLe, if_neg h]
      exact (ih.cons y).trans (List.Perm.swap x y ys)

theorem perm_sortByLe {α : Type} (f : α → Int) (l : List α) :
    (sortByLe f l).Perm l := by
  induction l with
  | nil => simp [sortByLe]
  | cons x xs ih =>
    exact (perm_insertLe f x (sortByLe f xs)).trans (ih.cons x)

theorem mem_sortByLe {α : Type} (f : α → Int) (a : α) (l : List α) :
    a ∈ sortByLe f l ↔ a ∈ l :=
  (perm_sortByLe f l).mem_iff

theorem pairwise_insertLe {α : Type} (f : α → Int) (x : α) (l : List α)
    (h : l.Pairwise (fun a b => f a ≤ f b)) :
    (insertLe f x l).Pairwise (fun a b => f a ≤ f b) := by
  induction l with
  | nil => simp [insertLe]
  | cons y ys ih =>
    rcases List.pairwise_cons.mp h with ⟨hy, hys⟩
    by_cases hle : f x ≤ f y
    · simp only [insertLe, if_pos hle]
      refine List.pairwise_cons.mpr ⟨?_, h⟩
      intro b hb
      rcases List.mem_cons.mp hb with hb | hb
      · exact hb ▸ hle
      · exact le_trans hle (hy b hb)
    · simp only [insertLe, if_neg hle]
      refine List.pairwise_cons.mpr ⟨?_, ih hys⟩
      intro b hb
      rcases (mem_insertLe f x b ys).mp hb with hb | hb
      · exact hb ▸ le_of_not_le hle
      · exact hy b hb

theorem sorted_sortByLe {α : Type} (f : α → Int) (l : List α) :
    (sortByLe f l).Pairwise (fun a b => f a ≤ f b) := by
  induction l with
  | nil => simp [sortByLe]
  | cons x xs ih => exact pairwise_insertLe f x (sortByLe f xs) ih

/-! ### Lemmas about mapValues -/

theorem mapValues_forall2 {α β ε : Type} (f : α → Except ε β) (xs : List α)
    (ys : List β) (h : mapValues f xs = .ok ys) :
    List.Forall₂ (fun x y => f x = .ok y) xs ys := by
  induction xs generalizing ys with
  | nil =>
    simp only [mapValues] at h
    cases h
    exact List.Forall₂.nil
  | cons x xs ih =>
    simp only [mapValues] at h
    cases hfx : f x with
    | error e => rw [hfx] at h; cases h
    | ok y =>
      rw [hfx] at h
      cases hrest : mapValues f xs with
      | error e => rw [hrest] at h; cases h
      | ok ys2 =>
        rw [hrest] at h
        cases h
        exact List.Forall₂.cons hfx (ih ys2 hrest)

theorem mapValues_length {α β ε : Type} (f : α → Except ε β) (xs : List α)
    (ys : List β) (h : mapValues f xs = .ok ys) : ys.length = xs.length :=
  (mapValues_forall2 f xs ys h).length_eq.symm

theorem forall2_mem_right {α β : Type} {R : α → β → Prop} {xs : List α} {ys : List β}
    (h : List.Forall₂ R xs ys) {y : β} (hy : y ∈ ys) : ∃ x ∈ xs, R x y := by
  induction h with
  | nil => cases hy
  | cons hR _ ih =>
    rcases List.mem_cons.mp hy with hy1 | hy1
    · exact ⟨_, List.mem_cons_self _ _, hy1 ▸ hR⟩
    · rcases ih hy1 with ⟨x, hx, hRx⟩
      exact ⟨x, List.mem_cons_of_mem _ hx, hRx⟩

theorem mapValues_mem {α β ε : Type} (f : α → Except ε β) (xs : List α)
    (ys : List β) (h : mapValues f xs = .ok ys) (y : β) (hy : y ∈ ys) :
    ∃ x ∈ xs, f x = .ok y :=
  forall2_mem_right (mapValues_forall2 f xs ys h) hy

theorem forall2_map_eq {α β γ : Type} {f : α → Except String β} (g : β → γ) (h2 : α → γ)
    {xs : List α} {ys : List β} (h : List.Forall₂ (fun x y => f x = .ok y) xs ys)
    (hg : ∀ x y, f x = .ok y → g y = h2 x) : ys.map g = xs.map h2 := by
  induction h with
  | nil => rfl
  | cons hfa _ ih => simp [hg _ _ hfa, ih]

theorem mapValues_map_eq {α β γ : Type} (f : α → Except String β) (g : β → γ) (h2 : α → γ)
    (xs : List α) (ys : List β) (h : mapValues f xs = .ok ys)
    (hg : ∀ x y, f x = .ok y → g y = h2 x) : ys.map g = xs.map h2 :=
  forall2_map_eq g h2 (mapValues_forall2 f xs ys h) hg

theorem mapValues_error_of_mem {α β ε : Type} (f : α → Except ε β) (xs : List α)
    (x : α) (e : ε) (hx : x ∈ xs) (hfx : f x = .error e) :
    ∃ e2, mapValues f xs = .error e2 := by
  induction xs with
  | nil => cases hx
  | cons a as ih =>
    rcases List.mem_cons.mp hx with hx1 | hx1
    · subst hx1
      exact ⟨e, by simp only [mapValues]; rw [hfx]⟩
    · cases hfa : f a with
      | error e3 => exact ⟨e3, by simp only [mapValues]; rw [hfa]⟩
      | ok y =>
        rcases ih hx1 with ⟨e2, he2⟩
        refine ⟨e2, ?_⟩
        simp only [mapValues]
        rw [hfa, he2]

/-! ### Lemmas about seriesQuery -/

theorem seriesQuery_zero (st : Store) (now : Int) (companyId deviceTypeId : Nat)
    (key timeRange : String) :
    seriesQuery st now companyId deviceTypeId key timeRange (some 0) = .ok [] := rfl

theorem seriesQuery_none (st : Store) (now : Int) (companyId deviceTypeId : Nat)
    (key timeRange : String) :
    seriesQuery st now companyId deviceTypeId key timeRange none =
      .error "invalid input syntax for type bigint" := rfl

theorem seriesQuery_neg (st : Store) (now : Int) (companyId deviceTypeId : Nat)
    (key timeRange : String) (l : Int) (hl : l < 0) :
    seriesQuery st now companyId deviceTypeId key timeRange (some l) =
      .error "LIMIT must not be negative" := by
  simp only [seriesQuery]
  rw [if_pos hl]

/-- Provenance of every emitted data point: it stems from a joined
device_data/device row passing all WHERE conjuncts, and carries that row's
timestamp, serial number and cast value. -/
theorem seriesQuery_ok_mem (st : Store) (now : Int) (companyId deviceTypeId : Nat)
    (key timeRange : String) (limitInt : Option Int) (pts : List Point)
    (h : seriesQuery st now companyId deviceTypeId key timeRange limitInt = .ok pts)
    (p : Point) (hp : p ∈ pts) :
    ∃ dd d, dd ∈ st.device_data ∧ d ∈ st.devices ∧ dd.device_id = d.id ∧
      d.company_id = companyId ∧ d.device_type_id = deviceTypeId ∧
      timePred timeRange now dd.created_at = true ∧ hasKey dd.data key = true ∧
      p.timestamp = dd.created_at ∧ p.serialNumber = dd.serial_number ∧
      sqlValue dd.data key = .ok p.value := by
  cases limitInt with
  | none => simp only [seriesQuery] at h; cases h
  | some l =>
    simp only [seriesQuery] at h
    by_cases hl : l < 0
    · rw [if_pos hl] at h; cases h
    · rw [if_neg hl] at h
      rcases mapValues_mem _ _ _ h p hp with ⟨r, hr, hfr⟩
      have hr2 : r ∈ selectedRows st now companyId deviceTypeId key timeRange :=
        List.mem_of_mem_take hr
      unfold selectedRows at hr2
      rw [mem_sortByLe] at hr2
      rcases List.mem_filter.mp hr2 with ⟨hjoin, hpred⟩
      simp only [Bool.and_eq_true, decide_eq_true_eq] at hpred
      rcases List.mem_flatMap.mp hjoin with ⟨dd, hdd, hmap⟩
      rcases List.mem_map.mp hmap with ⟨d, hdfil, hrd⟩
      rcases List.mem_filter.mp hdfil with ⟨hdmem, hdid⟩
      subst hrd
      refine ⟨dd, d, hdd, hdmem, of_decide_eq_true hdid, hpred.1.1.1, hpred.1.1.2,
        hpred.1.2, hpred.2, ?_, ?_, ?_⟩ <;>
        (cases hv : sqlValue dd.data key with
          | error e => rw [hv] at hfr; cases hfr
          | ok v =>
            rw [hv] at hfr
            simp only [Except.map, Except.ok.injEq] at hfr
            subst hfr
            simp)

/-- Every successful seriesQuery result has at most `limit` rows. -/
theorem seriesQuery_ok_length (st : Store) (now : Int) (companyId deviceTypeId : Nat)
    (key timeRange : String) (l : Int) (pts : List Point)
    (h : seriesQuery st now companyId deviceTypeId key timeRange (some l) = .ok pts) :
    pts.length ≤ l.toNat := by
  simp only [seriesQuery] at h
  by_cases hl : l < 0
  · rw [if_pos hl] at h; cases h
  · rw [if_neg hl] at h
    rw [mapValues_length _ _ _ h]
    exact le_trans (List.length_take_le _ _) le_rfl

/-- Every successful seriesQuery result is ordered ascending by
timestamp. -/
theorem seriesQuery_ok_sorted (st : Store) (now : Int) (companyId deviceTypeId : Nat)
    (key timeRange : String) (limitInt : Option Int) (pts : List Point)
    (h : seriesQuery st now companyId deviceTypeId key timeRange limitInt = .ok pts) :
    (pts.map Point.timestamp).Pairwise (· ≤ ·) := by
  cases limitInt with
  | none => simp only [seriesQuery] at h; cases h
  | some l =>
    simp only [seriesQuery] at h
    by_cases hl : l < 0
    · rw [if_pos hl] at h; cases h
    · rw [if_neg hl] at h
      have hmapeq : pts.map Point.timestamp =
          ((selectedRows st now companyId deviceTypeId key timeRange).take l.toNat).map
            (fun r => r.1.created_at) := by
        refine mapValues_map_eq _ _ _ _ _ h ?_
        intro r y hfy
        cases hv : sqlValue r.1.data key with
        | error e => rw [hv] at hfy; cases hfy
        | ok v =>
          rw [hv] at hfy
          simp only [Except.map, Except.ok.injEq] at hfy
          subst hfy
          rfl
      rw [hmapeq]
      refine List.pairwise_map.mpr ?_
      refine List.Pairwise.sublist (List.take_sublist _ _) ?_
      exact sorted_sortByLe _ _

/-- If some emitted row's value cast fails, the whole query fails. -/
theorem seriesQuery_error_of_badRow (st : Store) (now : Int) (companyId deviceTypeId : Nat)
    (key timeRange : String) (l : Int) (hl : ¬ l < 0)
    (r : DeviceData × Device)
    (hr : r ∈ (selectedRows st now companyId deviceTypeId key timeRange).take l.toNat)
    (e : String) (he : sqlValue r.1.data key = .error e) :
    ∃ e2, seriesQuery st now companyId deviceTypeId key timeRange (some l) = .error e2 := by
  simp only [seriesQuery]
  rw [if_neg hl]
  refine mapValues_error_of_mem _ _ r e hr ?_
  rw [he]
  rfl

/-! ### Lemmas about the per-series loop -/

theorem fetchAll_ok_mem (st : Store) (now : Int) (companyId deviceTypeId : Nat)
    (timeRange : String) (limitInt : Option Int) (specs : List SeriesSpec)
    (acc : List (String × SeriesOut)) (n : Nat) (data : List (String × SeriesOut)) (m : Nat)
    (h : fetchAll st now companyId deviceTypeId timeRange limitInt specs acc n = (.ok data, m))
    (name : String) (so : SeriesOut) (hmem : (name, so) ∈ data) :
    (name, so) ∈ acc ∨ ∃ s ∈ specs, ∃ pts,
      seriesQuery st now companyId deviceTypeId s.dataSourceProperty timeRange limitInt
          = .ok pts ∧
        name = s.displayName ∧ so = ⟨pts, s.unit, s.propertyName⟩ := by
  induction specs generalizing acc n with
  | nil =>
    simp only [fetchAll] at h
    injection h with h1 h2
    injection h1 with h1
    subst h1
    exact Or.inl hmem
  | cons s rest ih =>
    simp only [fetchAll] at h
    cases hq : seriesQuery st now companyId deviceTypeId s.dataSourceProperty
        timeRange limitInt with
    | error e =>
      rw [hq] at h
      injection h with h1 h2
      cases h1
    | ok pts =>
      rw [hq] at h
      rcases ih _ _ h with hacc | ⟨s2, hs2, pts2, hq2, hname, hso⟩
      · rcases mem_jsSet _ _ _ _ hacc with h2 | h2
        · exact Or.inl h2
        · right
          refine ⟨s, List.mem_cons_self _ _, pts, hq, ?_, ?_⟩
          · exact congrArg Prod.fst h2
          · exact congrArg Prod.snd h2
      · exact Or.inr ⟨s2, List.mem_cons_of_mem _ hs2, pts2, hq2, hname, hso⟩

theorem fetchAll_keys_nodup (st : Store) (now : Int) (companyId deviceTypeId : Nat)
    (timeRange : String) (limitInt : Option Int) (specs : List SeriesSpec)
    (acc : List (String × SeriesOut)) (n : Nat) (data : List (String × SeriesOut)) (m : Nat)
    (h : fetchAll st now companyId deviceTypeId timeRange limitInt specs acc n = (.ok data, m))
    (hacc : (acc.map Prod.fst).Nodup) : (data.map Prod.fst).Nodup := by
  induction specs generalizing acc n with
  | nil =>
    simp only [fetchAll] at h
    injection h with h1 h2
    injection h1 with h1
    subst h1
    exact hacc
  | cons s rest ih =>
    simp only [fetchAll] at h
    cases hq : seriesQuery st now companyId deviceTypeId s.dataSourceProperty
        timeRange limitInt with
    | error e =>
      rw [hq] at h
      injection h with h1 h2
      cases h1
    | ok pts =>
      rw [hq] at h
      exact ih _ _ h (nodup_keys_jsSet _ _ _ hacc)

/-- The later-configured series wins: jsGet on the accumulated seriesData
object is determined by the last spec with the given displayName. -/
theorem fetchAll_ok_lookup (st : Store) (now : Int) (companyId deviceTypeId : Nat)
    (timeRange : String) (limitInt : Option Int) (specs : List SeriesSpec)
    (acc : List (String × SeriesOut)) (n : Nat) (data : List (String × SeriesOut)) (m : Nat)
    (h : fetchAll st now companyId deviceTypeId timeRange limitInt specs acc n = (.ok data, m))
    (name : String) :
    (∃ s pts, (specs.filter (fun s => s.displayName = name)).getLast? = some s ∧
      seriesQuery st now companyId deviceTypeId s.dataSourceProperty timeRange limitInt
          = .ok pts ∧
      jsGet data name = some ⟨pts, s.unit, s.propertyName⟩) ∨
    (specs.filter (fun s => s.displayName = name) = [] ∧ jsGet data name = jsGet acc name) := by
  induction specs generalizing acc n with
  | nil =>
    simp only [fetchAll] at h
    injection h with h1 h2
    injection h1 with h1
    subst h1
    exact Or.inr ⟨rfl, rfl⟩
  | cons s rest ih =>
    simp only [fetchAll] at h
    cases hq : seriesQuery st now companyId deviceTypeId s.dataSourceProperty
        timeRange limitInt with
    | error e =>
      rw [hq] at h
      injection h with h1 h2
      cases h1
    | ok pts =>
      rw [hq] at h
      by_cases hn : s.displayName = name
      · rcases ih _ _ h with ⟨s2, pts2, hlast, hq2, hget⟩ | ⟨hempty, hget⟩
        · left
          refine ⟨s2, pts2, ?_, hq2, hget⟩
          rw [List.filter_cons_of_pos (by simpa using hn)]
          cases hfr : rest.filter (fun s => s.displayName = name) with
          | nil => rw [hfr] at hlast; cases hlast
          | cons a as => rw [hfr] at hlast; rw [List.getLast?_cons_cons, hlast]
        · left
          refine ⟨s, pts, ?_, hq, ?_⟩
          · rw [List.filter_cons_of_pos (by simpa using hn), hempty]
            rfl
          · rw [hget, jsGet_jsSet, if_pos (Eq.symm hn)]
      · rcases ih _ _ h with ⟨s2, pts2, hlast, hq2, hget⟩ | ⟨hempty, hget⟩
        · left
          refine ⟨s2, pts2, ?_, hq2, hget⟩
          rw [List.filter_cons_of_neg (by simpa using hn)]
          exact hlast
        · right
          refine ⟨?_, ?_⟩
          · rw [List.filter_cons_of_neg (by simpa using hn)]
            exact hempty
          · rw [hget, jsGet_jsSet, if_neg (fun hh => hn (Eq.symm hh))]

theorem fetchAll_zero (st : Store) (now : Int) (companyId deviceTypeId : Nat)
    (timeRange : String) (specs : List SeriesSpec) (acc : List (String × SeriesOut)) (n : Nat) :
    fetchAll st now companyId deviceTypeId timeRange (some 0) specs acc n =
      (.ok (specs.foldl (fun a s => jsSet a s.displayName ⟨[], s.unit, s.propertyName⟩) acc),
        n + specs.length) := by
  induction specs generalizing acc n with
  | nil => simp [fetchAll]
  | cons s rest ih =>
    simp only [fetchAll, seriesQuery_zero, List.foldl_cons]
    rw [ih]
    congr 1
    simp only [List.length_cons]
    omega

theorem fetchAll_head_error (st : Store) (now : Int) (companyId deviceTypeId : Nat)
    (timeRange : String) (limitInt : Option Int) (s : SeriesSpec) (rest : List SeriesSpec)
    (acc : List (String × SeriesOut)) (n : Nat) (e : String)
    (hq : seriesQuery st now companyId deviceTypeId s.dataSourceProperty timeRange limitInt
      = .error e) :
    fetchAll st now companyId deviceTypeId timeRange limitInt (s :: rest) acc n
      = (.error e, n + 1) := by
  simp only [fetchAll]
  rw [hq]

theorem mem_foldl_jsSet {α V : Type} (keyf : α → String) (g : α → V)
    (specs : List α) (acc : List (String × V)) (name : String) (v : V)
    (hmem : (name, v) ∈ specs.foldl (fun a s => jsSet a (keyf s) (g s)) acc) :
    (name, v) ∈ acc ∨ ∃ s ∈ specs, name = keyf s ∧ v = g s := by
  induction specs generalizing acc with
  | nil => exact Or.inl hmem
  | cons s rest ih =>
    rcases ih _ hmem with h1 | ⟨s2, hs2, h2⟩
    · rcases mem_jsSet _ _ _ _ h1 with h2 | h2
      · exact Or.inl h2
      · exact Or.inr ⟨s, List.mem_cons_self _ _,
          congrArg Prod.fst h2, congrArg Prod.snd h2⟩
    · exact Or.inr ⟨s2, List.mem_cons_of_mem _ hs2, h2⟩

theorem jsGet_of_mem_nodup {K V : Type} [DecidableEq K] (l : List (K × V)) (k : K) (v : V)
    (hnd : (l.map Prod.fst).Nodup) (hm : (k, v) ∈ l) : jsGet l k = some v := by
  induction l with
  | nil => cases hm
  | cons hd tl ih =>
    obtain ⟨a, b⟩ := hd
    rcases List.mem_cons.mp hm with h1 | h1
    · injection h1 with h1a h1b
      subst h1a
      subst h1b
      simp [jsGet]
    · have hne : a ≠ k := by
        intro hak
        subst hak
        exact (List.nodup_cons.mp hnd).1 (List.mem_map.mpr ⟨(a, v), h1, rfl⟩)
      simp only [jsGet, if_neg hne]
      exact ih (List.nodup_cons.mp hnd).2 h1

/-! ### Inversion of the widget-data handler -/

theorem widgetData_inv (st : Store) (now : Int) (companyId widgetId : Nat)
    (limitQ timeRangeQ : Option String) (hierarchyIdQ deviceIdQ : Option Nat)
    (resp : ApiResponse) (n : Nat)
    (h : widgetData st now companyId widgetId limitQ timeRangeQ hierarchyIdQ deviceIdQ
      = (resp, n)) :
    (st.widgets.find? (fun w => w.id = widgetId) = none ∧
      resp = ⟨404, false, some "Widget not found", none, none, none⟩ ∧ n = 0) ∨
    (∃ w, st.widgets.find? (fun w => w.id = widgetId) = some w ∧
      w.config.seriesConfig.isEmpty = true ∧
      resp = ⟨200, true, some "No series configured", some [], some w.config, none⟩ ∧ n = 0) ∨
    (∃ w data, st.widgets.find? (fun w => w.id = widgetId) = some w ∧
      w.config.seriesConfig.isEmpty = false ∧
      fetchAll st now companyId w.config.deviceTypeId (timeRangeQ.getD "24h")
        (jsParseInt (limitQ.getD "200")) w.config.seriesConfig [] 0 = (.ok data, n) ∧
      resp = ⟨200, true, none, some data, some w.config, none⟩) ∨
    (∃ w e, st.widgets.find? (fun w => w.id = widgetId) = some w ∧
      w.config.seriesConfig.isEmpty = false ∧
      fetchAll st now companyId w.config.deviceTypeId (timeRangeQ.getD "24h")
        (jsParseInt (limitQ.getD "200")) w.config.seriesConfig [] 0 = (.error e, n) ∧
      resp = ⟨500, false, some "Failed to fetch widget data", none, none, some e⟩) := by
  simp only [widgetData] at h
  split at h
  · rename_i hfind
    injection h with h1 h2
    exact Or.inl ⟨hfind, h1.symm, h2.symm⟩
  · rename_i w hfind
    split at h
    · rename_i hempty
      injection h with h1 h2
      exact Or.inr (Or.inl ⟨w, hfind, hempty, h1.symm, h2.symm⟩)
    · rename_i hempty
      split at h
      · rename_i data cnt hfa
        injection h with h1 h2
        subst h2
        exact Or.inr (Or.inr (Or.inl ⟨w, data, hfind, (by simpa using hempty),
          hfa, h1.symm⟩))
      · rename_i e cnt hfa
        injection h with h1 h2
        subst h2
        exact Or.inr (Or.inr (Or.inr ⟨w, e, hfind, (by simpa using hempty),
          hfa, h1.symm⟩))

/-! ### Lemmas about the latest-data endpoint -/

theorem latestQueryOut_mem (st : Store) (companyId deviceTypeId : Nat) (key : String)
    (p : LatestPoint) (hp : p ∈ latestQueryOut st companyId deviceTypeId key) :
    ∃ dl d dtr, dl ∈ st.device_latest ∧ d ∈ st.devices ∧ dtr ∈ st.device_types ∧
      dl.device_id = d.id ∧ d.device_type_id = dtr.id ∧
      d.company_id = companyId ∧ d.device_type_id = deviceTypeId ∧
      p.timestamp = dl.updated_at ∧ p.serialNumber = dl.serial_number := by
  unfold latestQueryOut at hp
  rcases List.mem_map.mp hp with ⟨r, hr, hpr⟩
  unfold latestSelectedRows at hr
  rw [mem_sortByLe] at hr
  rcases List.mem_filter.mp hr with ⟨hjoin, hpred⟩
  simp only [Bool.and_eq_true, decide_eq_true_eq] at hpred
  rcases List.mem_flatMap.mp hjoin with ⟨dl, hdl, hmap⟩
  rcases List.mem_flatMap.mp hmap with ⟨d, hdfil, hmap2⟩
  rcases List.mem_filter.mp hdfil with ⟨hdmem, hdid⟩
  rcases List.mem_map.mp hmap2 with ⟨dtr, hdtfil, hrd⟩
  rcases List.mem_filter.mp hdtfil with ⟨hdtmem, hdtid⟩
  subst hrd
  subst hpr
  exact ⟨dl, d, dtr, hdl, hdmem, hdtmem, of_decide_eq_true hdid,
    of_decide_eq_true hdtid, hpred.1, hpred.2, rfl, rfl⟩

theorem latestData_inv_data (st : Store) (companyId widgetId : Nat)
    (resp : LatestResponse) (n : Nat) (data : List (String × LatestOut))
    (h : latestData st companyId widgetId = (resp, n)) (hd : resp.data = some data) :
    ∃ w, st.widgets.find? (fun w => w.id = widgetId) = some w ∧
      data = w.config.seriesConfig.foldl (fun acc s =>
        jsSet acc s.displayName
          ⟨latestQueryOut st companyId w.config.deviceTypeId s.dataSourceProperty,
            aggregate (latestQueryOut st companyId w.config.deviceTypeId s.dataSourceProperty),
            (latestQueryOut st companyId w.config.deviceTypeId s.dataSourceProperty).length,
            s.unit⟩) [] := by
  simp only [latestData] at h
  split at h
  · rename_i hfind
    injection h with h1 h2
    rw [← h1] at hd
    cases hd
  · rename_i w hfind
    split at h
    · rename_i hempty
      injection h with h1 h2
      rw [← h1] at hd
      cases hd
    · injection h with h1 h2
      rw [← h1] at hd
      exact ⟨w, hfind, (Option.some.inj hd).symm⟩

/-! ### Lemmas about the frontend normalizer -/

theorem processSeries_nil (m : List (Int × List (String × Rat))) (name : String) :
    processSeries m name [] = m := rfl

theorem processSeries_cons (m : List (Int × List (String × Rat))) (name : String)
    (pt : Int × Rat) (rest : List (Int × Rat)) :
    processSeries m name (pt :: rest)
      = processSeries (insertPoint m name pt.1 pt.2) name rest := rfl

theorem jsGet_insertPoint (m : List (Int × List (String × Rat))) (name : String)
    (t' : Int) (v : Rat) (t : Int) :
    jsGet (insertPoint m name t' v) t =
      if t = t' then some (jsSet ((jsGet m t').getD []) name v) else jsGet m t :=
  jsGet_jsSet m t' t (jsSet ((jsGet m t').getD []) name v)

theorem keys_mem_insertPoint (m : List (Int × List (String × Rat))) (name : String)
    (t' : Int) (v : Rat) (t : Int) :
    t ∈ (insertPoint m name t' v).map Prod.fst ↔ t ∈ m.map Prod.fst ∨ t = t' :=
  mem_keys_jsSet m t' t (jsSet ((jsGet m t').getD []) name v)

theorem nodup_keys_insertPoint (m : List (Int × List (String × Rat))) (name : String)
    (t' : Int) (v : Rat) (h : (m.map Prod.fst).Nodup) :
    ((insertPoint m name t' v).map Prod.fst).Nodup :=
  nodup_keys_jsSet m t' (jsSet ((jsGet m t').getD []) name v) h

theorem keys_mem_processSeries (pts : List (Int × Rat)) (m : List (Int × List (String × Rat)))
    (name : String) (t : Int) :
    t ∈ (processSeries m name pts).map Prod.fst ↔
      t ∈ m.map Prod.fst ∨ t ∈ pts.map Prod.fst := by
  induction pts generalizing m with
  | nil => simp [processSeries_nil]
  | cons pt rest ih =>
    rw [processSeries_cons, ih, keys_mem_insertPoint]
    simp only [List.map_cons, List.mem_cons]
    tauto

theorem nodup_keys_processSeries (pts : List (Int × Rat))
    (m : List (Int × List (String × Rat))) (name : String)
    (h : (m.map Prod.fst).Nodup) : ((processSeries m name pts).map Prod.fst).Nodup := by
  induction pts generalizing m with
  | nil => exact h
  | cons pt rest ih =>
    rw [processSeries_cons]
    exact ih _ (nodup_keys_insertPoint _ _ _ _ h)

theorem jsGet_processSeries_notMem (pts : List (Int × Rat))
    (m : List (Int × List (String × Rat))) (name : String) (t : Int)
    (ht : t ∉ pts.map Prod.fst) :
    jsGet (processSeries m name pts) t = jsGet m t := by
  induction pts generalizing m with
  | nil => rfl
  | cons pt rest ih =>
    simp only [List.map_cons, List.mem_cons, not_or] at ht
    rw [processSeries_cons, ih _ ht.2, jsGet_insertPoint, if_neg ht.1]

/-- Column access on the dataMap: the value of series `s` in the row of
timestamp `t`. -/
def colGet (m : List (Int × List (String × Rat))) (t : Int) (s : String) : Option Rat :=
  jsGet ((jsGet m t).getD []) s

theorem colGet_insertPoint_ne (m : List (Int × List (String × Rat))) (name : String)
    (t' : Int) (v : Rat) (t : Int) (s : String) (hs : s ≠ name) :
    colGet (insertPoint m name t' v) t s = colGet m t s := by
  unfold colGet
  rw [jsGet_insertPoint]
  by_cases h : t = t'
  · rw [if_pos h]
    subst h
    simp only [Option.getD_some]
    rw [jsGet_jsSet, if_neg hs]
  · rw [if_neg h]

theorem colGet_processSeries_ne (pts : List (Int × Rat))
    (m : List (Int × List (String × Rat))) (name : String) (t : Int) (s : String)
    (hs : s ≠ name) : colGet (processSeries m name pts) t s = colGet m t s := by
  induction pts generalizing m with
  | nil => rfl
  | cons pt rest ih =>
    rw [processSeries_cons, ih _, colGet_insertPoint_ne _ _ _ _ _ _ hs]

theorem colGet_buildFold_notName (input : List (String × FrontSeries))
    (m : List (Int × List (String × Rat))) (t : Int) (s : String)
    (hs : s ∉ input.map Prod.fst) :
    colGet (input.foldl (fun m2 p => processSeries m2 p.1 p.2.data) m) t s
      = colGet m t s := by
  induction input generalizing m with
  | nil => rfl
  | cons p rest ih =>
    simp only [List.map_cons, List.mem_cons, not_or] at hs
    rw [List.foldl_cons, ih _ hs.2, colGet_processSeries_ne _ _ _ _ _ hs.1]

theorem keys_mem_buildFold (input : List (String × FrontSeries))
    (m : List (Int × List (String × Rat))) (t : Int) :
    t ∈ (input.foldl (fun m2 p => processSeries m2 p.1 p.2.data) m).map Prod.fst ↔
      t ∈ m.map Prod.fst ∨ ∃ p ∈ input, t ∈ p.2.data.map Prod.fst := by
  induction input generalizing m with
  | nil => simp
  | cons p rest ih =>
    rw [List.foldl_cons, ih, keys_mem_processSeries]
    simp only [List.exists_mem_cons_iff]
    tauto

theorem nodup_keys_buildFold (input : List (String × FrontSeries))
    (m : List (Int × List (String × Rat))) (h : (m.map Prod.fst).Nodup) :
    ((input.foldl (fun m2 p => processSeries m2 p.1 p.2.data) m).map Prod.fst).Nodup := by
  induction input generalizing m with
  | nil => exact h
  | cons p rest ih =>
    rw [List.foldl_cons]
    exact ih _ (nodup_keys_processSeries _ _ _ h)

theorem colGet_buildFold_unset (input : List (String × FrontSeries))
    (hnames : (input.map Prod.fst).Nodup) (s : String) (ser : FrontSeries)
    (hin : (s, ser) ∈ input) (t : Int) (ht : t ∉ ser.data.map Prod.fst)
    (m : List (Int × List (String × Rat))) (hm : colGet m t s = none) :
    colGet (input.foldl (fun m2 p => processSeries m2 p.1 p.2.data) m) t s = none := by
  induction input generalizing m with
  | nil => cases hin
  | cons p rest ih =>
    rw [List.foldl_cons]
    rcases List.mem_cons.mp hin with h1 | h1
    · obtain rfl : p = (s, ser) := h1.symm
      have hnames2 : (s :: rest.map Prod.fst).Nodup := by simpa using hnames
      have hs_rest : s ∉ rest.map Prod.fst := (List.nodup_cons.mp hnames2).1
      rw [colGet_buildFold_notName rest _ t s hs_rest]
      unfold colGet
      rw [jsGet_processSeries_notMem _ _ _ _ ht]
      exact hm
    · have hnames2 : (p.1 :: rest.map Prod.fst).Nodup := by simpa using hnames
      have hsp : s ≠ p.1 := by
        intro he
        have hmem : s ∈ rest.map Prod.fst := List.mem_map.mpr ⟨(s, ser), h1, rfl⟩
        rw [he] at hmem
        exact (List.nodup_cons.mp hnames2).1 hmem
      have hnd2 : (rest.map Prod.fst).Nodup := (List.nodup_cons.mp hnames2).2
      refine ih hnd2 h1 _ ?_
      rw [colGet_processSeries_ne _ _ _ _ _ hsp]
      exact hm

/-! ### Lemmas about the timeRange fallback -/

theorem timeWindow_eq_none (tr : String)
    (h : tr ∉ (["1h", "6h", "24h", "7d", "30d"] : List String)) : timeWindow tr = none := by
  simp only [List.mem_cons, List.not_mem_nil, or_false, not_or] at h
  obtain ⟨h1, h2, h3, h4, h5⟩ := h
  simp [timeWindow, h1, h2, h3, h4, h5]

theorem timePred_of_none (tr : String) (hw : timeWindow tr = none) (now t : Int) :
    timePred tr now t = true := by
  unfold timePred
  rw [hw]

theorem seriesQuery_eq_allHistory (st : Store) (now : Int) (companyId deviceTypeId : Nat)
    (key tr : String) (limitInt : Option Int) (hw : timeWindow tr = none) :
    seriesQuery st now companyId deviceTypeId key tr limitInt
      = seriesQueryAllHistory st companyId deviceTypeId key limitInt := by
  cases limitInt with
  | none => rfl
  | some l =>
    simp only [seriesQuery, seriesQueryAllHistory, selectedRows]
    have hfil :
        (st.device_data.flatMap (fun dd =>
          (st.devices.filter (fun d => dd.device_id = d.id)).map (fun d => (dd, d)))).filter
          (fun r =>
            decide (r.2.company_id = companyId) && decide (r.2.device_type_id = deviceTypeId)
              && timePred tr now r.1.created_at && hasKey r.1.data key)
        = (st.device_data.flatMap (fun dd =>
          (st.devices.filter (fun d => dd.device_id = d.id)).map (fun d => (dd, d)))).filter
          (fun r =>
            decide (r.2.company_id = companyId) && decide (r.2.device_type_id = deviceTypeId)
              && hasKey r.1.data key) := by
      refine List.filter_congr ?_
      intro r _
      rw [timePred_of_none tr hw, Bool.and_true]
    rw [hfil]

theorem getLast?_mem {α : Type} {l : List α} {a : α} (h : l.getLast? = some a) :
    a ∈ l := by
  rcases List.mem_getLast?_eq_getLast (by simpa [Option.mem_def] using h) with ⟨hne, rfl⟩
  exact List.getLast_mem hne

/-! ### Concrete fixtures -/

/-- A widget of device type 1 with one series over field ofr. -/
def exWidget : WidgetDef := ⟨10, ⟨1, [⟨"OFR", "ofr", "l/min", "Oil Flow Rate"⟩]⟩⟩

/-- One company-1 device of type 1 assigned to hierarchy node 99. -/
def exDevice : Device := ⟨1, 1, 1, some 99, "D1", []⟩

/-- Store: hierarchy nodes 5, 6 (child of 5) and 99 (a separate root);
device 1 sits on node 99; one ofr sample at time 999000. -/
def exStore : Store :=
  { widgets := [exWidget]
    devices := [exDevice]
    device_types := [⟨1, "MPFM"⟩]
    device_data := [⟨1, "D1", 999000, [("ofr", .num 7)]⟩]
    device_latest := []
    hierarchy := [⟨5, none⟩, ⟨6, some 5⟩, ⟨99, none⟩] }

/-- Same store except the sample's ofr value is the non-numeric string
abc. -/
def exStoreBad : Store :=
  { widgets := [exWidget]
    devices := [exDevice]
    device_types := [⟨1, "MPFM"⟩]
    device_data := [⟨1, "D1", 999000, [("ofr", .str "abc")]⟩]
    device_latest := []
    hierarchy := [⟨5, none⟩, ⟨6, some 5⟩, ⟨99, none⟩] }

/-- A widget whose two configured series share the displayName OFR. -/
def exStoreDup : Store :=
  { widgets := [⟨11, ⟨1, [⟨"OFR", "ofr", "l/min", "Oil Flow Rate"⟩,
      ⟨"OFR", "wfr", "l/min", "Water Flow Rate"⟩]⟩⟩]
    devices := [exDevice]
    device_types := [⟨1, "MPFM"⟩]
    device_data := [⟨1, "D1", 999000, [("ofr", .num 7), ("wfr", .num 3)]⟩]
    device_latest := []
    hierarchy := [] }

/-- A widget with an empty series list. -/
def exStoreEmpty : Store :=
  { widgets := [⟨20, ⟨1, []⟩⟩]
    devices := []
    device_types := []
    device_data := []
    device_latest := []
    hierarchy := [] }

/-! ### Claim theorems -/

/-- C9: for every widgetId with no matching widget definition, the
widget-data endpoint answers with the distinct 404 response carrying
success=false and the message Widget not found, and issues no telemetry
query. -/
theorem c9_widget_not_found (st : Store) (now : Int) (companyId widgetId : Nat)
    (limitQ timeRangeQ : Option String) (hierarchyIdQ deviceIdQ : Option Nat)
    (hfind : st.widgets.find? (fun w => w.id = widgetId) = none) :
    widgetData st now companyId widgetId limitQ timeRangeQ hierarchyIdQ deviceIdQ
      = (⟨404, false, some "Widget not found", none, none, none⟩, 0) := by
  simp [widgetData, hfind]

/-- C9 witness: widget 999 does not exist in the fixture store. -/
theorem c9_widget_not_found_witness :
    exStore.widgets.find? (fun w => w.id = 999) = none ∧
    widgetData exStore 0 1 999 none none none none
      = (⟨404, false, some "Widget not found", none, none, none⟩, 0) :=
  ⟨rfl, c9_widget_not_found exStore 0 1 999 none none none none rfl⟩

/-- C8: for every widget whose configuration declares an empty series
list, the widget-data endpoint answers successfully with an empty data
object and issues no telemetry query. -/
theorem c8_empty_series (st : Store) (now : Int) (companyId widgetId : Nat)
    (limitQ timeRangeQ : Option String) (hierarchyIdQ deviceIdQ : Option Nat)
    (w : WidgetDef) (hfind : st.widgets.find? (fun x => x.id = widgetId) = some w)
    (hempty : w.config.seriesConfig = []) :
    widgetData st now companyId widgetId limitQ timeRangeQ hierarchyIdQ deviceIdQ
      = (⟨200, true, some "No series configured", some [], some w.config, none⟩, 0) := by
  simp [widgetData, hfind, hempty]

/-- C8 witness: widget 20 of the empty fixture store has no configured
series. -/
theorem c8_empty_series_witness :
    widgetData exStoreEmpty 0 1 20 none none none none
      = (⟨200, true, some "No series configured", some [], some ⟨1, []⟩, none⟩, 0) :=
  c8_empty_series exStoreEmpty 0 1 20 none none none none ⟨20, ⟨1, []⟩⟩ rfl rfl

/-- C5: the timeRange values 1h, 6h, 24h, 7d and 30d restrict samples to
the corresponding trailing window; any other timeRange string imposes no
time restriction at all, so the fetch coincides with the all-history
fetch capped at limit. -/
theorem c5_time_range (st2 : Store) :
    (timeWindow "1h" = some 3600 ∧ timeWindow "6h" = some 21600 ∧
      timeWindow "24h" = some 86400 ∧ timeWindow "7d" = some 604800 ∧
      timeWindow "30d" = some 2592000) ∧
    (∀ tr now t w, timeWindow tr = some w → (timePred tr now t = true ↔ now - w ≤ t)) ∧
    (∀ tr, tr ∉ (["1h", "6h", "24h", "7d", "30d"] : List String) →
      (∀ now t, timePred tr now t = true) ∧
      ∀ now companyId deviceTypeId key limitInt,
        seriesQuery st2 now companyId deviceTypeId key tr limitInt
          = seriesQueryAllHistory st2 companyId deviceTypeId key limitInt) := by
  refine ⟨⟨rfl, rfl, rfl, rfl, rfl⟩, ?_, ?_⟩
  · intro tr now t w hw
    unfold timePred
    rw [hw]
    simp
  · intro tr htr
    have hw := timeWindow_eq_none tr htr
    exact ⟨fun now t => timePred_of_none tr hw now t,
      fun now companyId deviceTypeId key limitInt =>
        seriesQuery_eq_allHistory st2 now companyId deviceTypeId key tr limitInt hw⟩

/-- C5 witness: the string 45m is not in the enumeration, imposes no
restriction, and the fetch equals the all-history fetch on the fixture
store. -/
theorem c5_time_range_witness :
    ("45m" ∉ (["1h", "6h", "24h", "7d", "30d"] : List String)) ∧
    timePred "45m" 0 (-5) = true ∧
    seriesQuery exStore 0 1 1 "ofr" "45m" (some 200)
      = seriesQueryAllHistory exStore 1 1 "ofr" (some 200) :=
  ⟨by decide,
    ((c5_time_range exStore).2.2 "45m" (by decide)).1 0 (-5),
    ((c5_time_range exStore).2.2 "45m" (by decide)).2 0 1 1 "ofr" (some 200)⟩

/-- C3: every successful per-series fetch emits at most limit rows, in
ascending timestamp order, and only from joined rows whose device matches
the requested device type, whose payload contains the series field key and
whose timestamp lies inside the recognized time window; an absent limit
parameter behaves exactly like limit=200. -/
theorem c3_series_query_shape :
    (∀ (st : Store) (now : Int) (companyId deviceTypeId : Nat) (key tr : String)
        (l : Int) (pts : List Point),
      seriesQuery st now companyId deviceTypeId key tr (some l) = .ok pts →
        pts.length ≤ l.toNat ∧
        (pts.map Point.timestamp).Chain' (· ≤ ·) ∧
        ∀ p ∈ pts, ∃ dd d, dd ∈ st.device_data ∧ d ∈ st.devices ∧
          dd.device_id = d.id ∧ d.device_type_id = deviceTypeId ∧
          hasKey dd.data key = true ∧ p.timestamp = dd.created_at ∧
          ∀ w, timeWindow tr = some w → now - w ≤ p.timestamp) ∧
    (∀ (st : Store) (now : Int) (companyId widgetId : Nat)
        (timeRangeQ : Option String) (hierarchyIdQ deviceIdQ : Option Nat),
      widgetData st now companyId widgetId none timeRangeQ hierarchyIdQ deviceIdQ
        = widgetData st now companyId widgetId (some "200") timeRangeQ
            hierarchyIdQ deviceIdQ) := by
  refine ⟨?_, fun _ _ _ _ _ _ _ => rfl⟩
  intro st now companyId deviceTypeId key tr l pts h
  refine ⟨seriesQuery_ok_length st now companyId deviceTypeId key tr l pts h,
    (seriesQuery_ok_sorted st now companyId deviceTypeId key tr (some l) pts h).chain', ?_⟩
  intro p hp
  rcases seriesQuery_ok_mem st now companyId deviceTypeId key tr (some l) pts h p hp with
    ⟨dd, d, hdd, hd, hid, _, htype, htime, hkey, hts, hsn, hval⟩
  refine ⟨dd, d, hdd, hd, hid, htype, hkey, hts, ?_⟩
  intro w hw
  unfold timePred at htime
  rw [hw] at htime
  rw [hts]
  exact of_decide_eq_true htime

/-- C3 witness: on the fixture store the single 24h sample is emitted once,
within bounds and in order. -/
theorem c3_series_query_shape_witness :
    ([(⟨999000, "D1", 7⟩ : Point)].length ≤ (200 : Int).toNat) ∧
    (([(⟨999000, "D1", 7⟩ : Point)].map Point.timestamp).Chain' (· ≤ ·)) ∧
    (∀ p ∈ [(⟨999000, "D1", 7⟩ : Point)], ∃ dd d, dd ∈ exStore.device_data ∧
      d ∈ exStore.devices ∧ dd.device_id = d.id ∧ d.device_type_id = 1 ∧
      hasKey dd.data "ofr" = true ∧ p.timestamp = dd.created_at ∧
      ∀ w, timeWindow "24h" = some w → 1000000 - w ≤ p.timestamp) :=
  c3_series_query_shape.1 exStore 1000000 1 1 "ofr" "24h" 200 [⟨999000, "D1", 7⟩] rfl

/-- C2: every record returned by the widget-data and latest-data endpoints
comes from a device whose company_id equals the requesting principal's
company, whatever the hierarchyId and deviceId parameters carry. -/
theorem c2_tenant_isolation :
    (∀ (st : Store) (now : Int) (companyId widgetId : Nat)
        (limitQ timeRangeQ : Option String) (hierarchyIdQ deviceIdQ : Option Nat)
        (resp : ApiResponse) (n : Nat) (data : List (String × SeriesOut)),
      widgetData st now companyId widgetId limitQ timeRangeQ hierarchyIdQ deviceIdQ
          = (resp, n) →
      resp.data = some data →
      ∀ name so, (name, so) ∈ data → ∀ p ∈ so.data,
        ∃ dd d, dd ∈ st.device_data ∧ d ∈ st.devices ∧ dd.device_id = d.id ∧
          d.company_id = companyId ∧ p.timestamp = dd.created_at ∧
          p.serialNumber = dd.serial_number) ∧
    (∀ (st : Store) (companyId widgetId : Nat) (resp : LatestResponse) (n : Nat)
        (data : List (String × LatestOut)),
      latestData st companyId widgetId = (resp, n) →
      resp.data = some data →
      ∀ name lo, (name, lo) ∈ data → ∀ p ∈ lo.latest,
        ∃ dl d, dl ∈ st.device_latest ∧ d ∈ st.devices ∧ dl.device_id = d.id ∧
          d.company_id = companyId ∧ p.serialNumber = dl.serial_number) := by
  constructor
  · intro st now companyId widgetId limitQ timeRangeQ hierarchyIdQ deviceIdQ resp n data
      h hd name so hmem p hp
    rcases widgetData_inv st now companyId widgetId limitQ timeRangeQ hierarchyIdQ
        deviceIdQ resp n h with
      ⟨_, hresp, _⟩ | ⟨w, _, _, hresp, _⟩ | ⟨w, data2, _, _, hfa, hresp⟩ |
      ⟨w, e, _, _, _, hresp⟩
    · rw [hresp] at hd; cases hd
    · rw [hresp] at hd
      cases Option.some.inj hd
      cases hmem
    · rw [hresp] at hd
      cases Option.some.inj hd
      rcases fetchAll_ok_mem _ _ _ _ _ _ _ _ _ _ _ hfa name so hmem with
        habs | ⟨s, _, pts, hq, _, hso⟩
      · cases habs
      · rw [hso] at hp
        rcases seriesQuery_ok_mem _ _ _ _ _ _ _ _ hq p hp with
          ⟨dd, d, hdd, hd2, hid, hcomp, _, _, _, hts, hsn, _⟩
        exact ⟨dd, d, hdd, hd2, hid, hcomp, hts, hsn⟩
    · rw [hresp] at hd; cases hd
  · intro st companyId widgetId resp n data h hd name lo hmem p hp
    rcases latestData_inv_data st companyId widgetId resp n data h hd with ⟨w, _, hdata⟩
    rw [hdata] at hmem
    rcases mem_foldl_jsSet (fun s : SeriesSpec => s.displayName)
        (fun s => (⟨latestQueryOut st companyId w.config.deviceTypeId s.dataSourceProperty,
          aggregate (latestQueryOut st companyId w.config.deviceTypeId s.dataSourceProperty),
          (latestQueryOut st companyId w.config.deviceTypeId s.dataSourceProperty).length,
          s.unit⟩ : LatestOut))
        w.config.seriesConfig [] name lo hmem with
      habs | ⟨s, _, _, hlo⟩
    · cases habs
    · rw [hlo] at hp
      rcases latestQueryOut_mem st companyId w.config.deviceTypeId
          s.dataSourceProperty p hp with
        ⟨dl, d, dtr, hdl, hd2, _, hid, _, hcomp, _, _, hsn⟩
      exact ⟨dl, d, hdl, hd2, hid, hcomp, hsn⟩

/-- C2 witness: the single point the fixture store returns comes from the
company-1 device. -/
theorem c2_tenant_isolation_witness :
    ∃ dd d, dd ∈ exStore.device_data ∧ d ∈ exStore.devices ∧
      dd.device_id = d.id ∧ d.company_id = 1 ∧
      (⟨999000, "D1", 7⟩ : Point).timestamp = dd.created_at ∧
      (⟨999000, "D1", 7⟩ : Point).serialNumber = dd.serial_number :=
  c2_tenant_isolation.1 exStore 1000000 1 10 (some "200") (some "24h") (some 5) none
    ⟨200, true, none,
      some [("OFR", ⟨[⟨999000, "D1", 7⟩], "l/min", "Oil Flow Rate"⟩)],
      some ⟨1, [⟨"OFR", "ofr", "l/min", "Oil Flow Rate"⟩]⟩, none⟩ 1
    [("OFR", ⟨[⟨999000, "D1", 7⟩], "l/min", "Oil Flow Rate"⟩)] rfl rfl
    "OFR" ⟨[⟨999000, "D1", 7⟩], "l/min", "Oil Flow Rate"⟩ (List.mem_singleton.mpr rfl)
    ⟨999000, "D1", 7⟩ (List.mem_singleton.mpr rfl)

/-- The concrete normalizer input of claim C4: series A with points at
timestamps 1 and 2, series B with one point at timestamp 1. -/
def exC4Input : List (String × FrontSeries) :=
  [("A", ⟨[(1, 1), (2, 2)], "u"⟩), ("B", ⟨[(1, 9)], "u"⟩)]

/-- C4: formatChartData is a pure transform producing one row per distinct
timestamp in the union of the input series timestamps, leaving a series
column unset on rows whose timestamp the series misses, emitting rows in
ascending timestamp order with the series-name list in input order; on
A=[(1,1),(2,2)], B=[(1,9)] it yields rows [(1,[A:1,B:9]),(2,[A:2])] with
keys [A,B]. -/
theorem c4_normalizer (input : List (String × FrontSeries))
    (hnames : (input.map Prod.fst).Nodup) :
    (formatChartData input).keys = input.map Prod.fst ∧
    ((formatChartData input).data.map Prod.fst).Chain' (· < ·) ∧
    (∀ t : Int, t ∈ (formatChartData input).data.map Prod.fst ↔
      ∃ p ∈ input, t ∈ p.2.data.map Prod.fst) ∧
    (∀ t cols, (t, cols) ∈ (formatChartData input).data →
      ∀ p ∈ input, t ∉ p.2.data.map Prod.fst → jsGet cols p.1 = none) ∧
    formatChartData exC4Input =
      ⟨[(1, [("A", 1), ("B", 9)]), (2, [("A", 2)])], ["A", "B"], [("A", "u"), ("B", "u")]⟩ := by
  have hdata : (formatChartData input).data = sortByLe (fun r => r.1) (buildMap input) := rfl
  have hnodupBM : ((buildMap input).map Prod.fst).Nodup :=
    nodup_keys_buildFold input [] (by simp)
  have hperm : ((formatChartData input).data.map Prod.fst).Perm
      ((buildMap input).map Prod.fst) := by
    rw [hdata]
    exact (perm_sortByLe (fun r => r.1) (buildMap input)).map Prod.fst
  have hnodup : ((formatChartData input).data.map Prod.fst).Nodup :=
    hperm.nodup_iff.mpr hnodupBM
  refine ⟨rfl, ?_, ?_, ?_, rfl⟩
  · have hsorted : (formatChartData input).data.Pairwise (fun a b => a.1 ≤ b.1) := by
      rw [hdata]
      exact sorted_sortByLe (fun r => r.1) (buildMap input)
    have hne : (formatChartData input).data.Pairwise (fun a b => a.1 ≠ b.1) :=
      List.pairwise_map.mp hnodup
    have hlt : (formatChartData input).data.Pairwise (fun a b => a.1 < b.1) :=
      (hsorted.and hne).imp (fun h => lt_of_le_of_ne h.1 h.2)
    exact (List.pairwise_map.mpr hlt).chain'
  · intro t
    have h1 : t ∈ (formatChartData input).data.map Prod.fst ↔
        t ∈ (buildMap input).map Prod.fst := hperm.mem_iff
    rw [h1]
    unfold buildMap
    rw [keys_mem_buildFold]
    simp
  · intro t cols hmem p hpin ht
    have hmem2 : (t, cols) ∈ buildMap input := by
      rw [hdata] at hmem
      exact (mem_sortByLe (fun r => r.1) (t, cols) (buildMap input)).mp hmem
    have hget : jsGet (buildMap input) t = some cols :=
      jsGet_of_mem_nodup _ _ _ hnodupBM hmem2
    have hcol : colGet (buildMap input) t p.1 = none := by
      unfold buildMap
      refine colGet_buildFold_unset input hnames p.1 p.2 ?_ t ht [] rfl
      simpa using hpin
    unfold colGet at hcol
    rw [hget] at hcol
    simpa using hcol

/-- C4 witness: the concrete input has distinct series names and the
normalizer yields exactly the rows the claim states. -/
theorem c4_normalizer_witness :
    (exC4Input.map Prod.fst).Nodup ∧
    (formatChartData exC4Input).keys = exC4Input.map Prod.fst ∧
    formatChartData exC4Input =
      ⟨[(1, [("A", 1), ("B", 9)]), (2, [("A", 2)])], ["A", "B"], [("A", "u"), ("B", "u")]⟩ :=
  ⟨by decide, (c4_normalizer exC4Input (by decide)).1,
    (c4_normalizer exC4Input (by decide)).2.2.2.2⟩

/-- A widget whose configured series all fail identically makes the
handler answer 500 with that store error attached. -/
theorem widgetData_error_of_uniform_error (st : Store) (now : Int)
    (companyId widgetId : Nat) (limitQ timeRangeQ : Option String)
    (hierarchyIdQ deviceIdQ : Option Nat) (w : WidgetDef)
    (hfind : st.widgets.find? (fun x => x.id = widgetId) = some w)
    (hne : w.config.seriesConfig ≠ []) (e : String)
    (hq : ∀ key, seriesQuery st now companyId w.config.deviceTypeId key
      (timeRangeQ.getD "24h") (jsParseInt (limitQ.getD "200")) = .error e) :
    (widgetData st now companyId widgetId limitQ timeRangeQ hierarchyIdQ deviceIdQ).1
      = ⟨500, false, some "Failed to fetch widget data", none, none, some e⟩ := by
  rcases widgetData_inv st now companyId widgetId limitQ timeRangeQ hierarchyIdQ deviceIdQ
      (widgetData st now companyId widgetId limitQ timeRangeQ hierarchyIdQ deviceIdQ).1
      (widgetData st now companyId widgetId limitQ timeRangeQ hierarchyIdQ deviceIdQ).2
      rfl with
    ⟨hf, _, _⟩ | ⟨w2, hf, hem, _, _⟩ | ⟨w2, data2, hf, _, hfa, _⟩ |
    ⟨w2, e2, hf, _, hfa, hresp⟩
  · rw [hfind] at hf; cases hf
  · rw [hfind] at hf
    cases Option.some.inj hf
    rw [List.isEmpty_iff.mp hem] at hne
    exact absurd rfl hne
  · rw [hfind] at hf
    cases Option.some.inj hf
    cases hc : w.config.seriesConfig with
    | nil => exact absurd hc hne
    | cons s0 rest =>
      rw [hc, fetchAll_head_error _ _ _ _ _ _ _ _ _ _ _ (hq s0.dataSourceProperty)] at hfa
      injection hfa with h1 _
      cases h1
  · rw [hfind] at hf
    cases Option.some.inj hf
    cases hc : w.config.seriesConfig with
    | nil => exact absurd hc hne
    | cons s0 rest =>
      rw [hc, fetchAll_head_error _ _ _ _ _ _ _ _ _ _ _ (hq s0.dataSourceProperty)] at hfa
      injection hfa with h1 _
      injection h1 with h1
      rw [hresp, ← h1]

/-- limit=0 short-circuits every series query to zero rows and the handler
answers 200 with every configured series present but empty. -/
theorem widgetData_zero_limit (st : Store) (now : Int) (companyId widgetId : Nat)
    (timeRangeQ : Option String) (hierarchyIdQ deviceIdQ : Option Nat) (w : WidgetDef)
    (hfind : st.widgets.find? (fun x => x.id = widgetId) = some w)
    (hne : w.config.seriesConfig ≠ []) :
    widgetData st now companyId widgetId (some "0") timeRangeQ hierarchyIdQ deviceIdQ
      = (⟨200, true, none,
          some (w.config.seriesConfig.foldl
            (fun a s => jsSet a s.displayName ⟨[], s.unit, s.propertyName⟩) []),
          some w.config, none⟩, w.config.seriesConfig.length) := by
  rcases widgetData_inv st now companyId widgetId (some "0") timeRangeQ hierarchyIdQ deviceIdQ
      (widgetData st now companyId widgetId (some "0") timeRangeQ hierarchyIdQ deviceIdQ).1
      (widgetData st now companyId widgetId (some "0") timeRangeQ hierarchyIdQ deviceIdQ).2
      rfl with
    ⟨hf, _, _⟩ | ⟨w2, hf, hem, _, _⟩ | ⟨w2, data2, hf, _, hfa, hresp⟩ |
    ⟨w2, e2, hf, _, hfa, _⟩
  · rw [hfind] at hf; cases hf
  · rw [hfind] at hf
    cases Option.some.inj hf
    rw [List.isEmpty_iff.mp hem] at hne
    exact absurd rfl hne
  · rw [hfind] at hf
    cases Option.some.inj hf
    rw [show jsParseInt ((some "0").getD "200") = some 0 from rfl, fetchAll_zero] at hfa
    injection hfa with h1 h2
    injection h1 with h1
    have hpair : widgetData st now companyId widgetId (some "0") timeRangeQ hierarchyIdQ
        deviceIdQ
        = ((widgetData st now companyId widgetId (some "0") timeRangeQ hierarchyIdQ
            deviceIdQ).1,
          (widgetData st now companyId widgetId (some "0") timeRangeQ hierarchyIdQ
            deviceIdQ).2) := rfl
    rw [hpair, hresp, ← h1, ← h2, Nat.zero_add]
  · rw [hfind] at hf
    cases Option.some.inj hf
    rw [show jsParseInt ((some "0").getD "200") = some 0 from rfl, fetchAll_zero] at hfa
    injection hfa with h1 _
    cases h1

/-- C6 counterexample: on the fixture store a negative limit and a
non-numeric limit both make the request fail with a 500 response instead
of falling back to the default of 200, under which the request succeeds. -/
theorem c6_counterexample_limit_not_defaulted :
    (widgetData exStore 1000000 1 10 (some "-5") (some "24h") none none).1
      = ⟨500, false, some "Failed to fetch widget data", none, none,
          some "LIMIT must not be negative"⟩ ∧
    (widgetData exStore 1000000 1 10 (some "abc") (some "24h") none none).1
      = ⟨500, false, some "Failed to fetch widget data", none, none,
          some "invalid input syntax for type bigint"⟩ ∧
    (widgetData exStore 1000000 1 10 (some "200") (some "24h") none none).1.success
      = true :=
  ⟨rfl, rfl, rfl⟩

/-- C6 amended: limit=0 yields zero rows per series without an error and an
absent limit falls back to the default of 200; but a negative or
non-numeric limit is not defaulted: the parsed value reaches the store and
the whole request fails with a 500 response. -/
theorem c6_amended_limit_handling :
    (∀ (st : Store) (now : Int) (companyId widgetId : Nat) (timeRangeQ : Option String)
        (hierarchyIdQ deviceIdQ : Option Nat) (w : WidgetDef),
      st.widgets.find? (fun x => x.id = widgetId) = some w →
      w.config.seriesConfig ≠ [] →
      ((widgetData st now companyId widgetId (some "0") timeRangeQ hierarchyIdQ
          deviceIdQ).1.success = true ∧
       (∀ data, (widgetData st now companyId widgetId (some "0") timeRangeQ hierarchyIdQ
            deviceIdQ).1.data = some data →
          ∀ name so, (name, so) ∈ data → so.data = []) ∧
       (∀ s, jsParseInt s = none →
          (widgetData st now companyId widgetId (some s) timeRangeQ hierarchyIdQ
              deviceIdQ).1
            = ⟨500, false, some "Failed to fetch widget data", none, none,
                some "invalid input syntax for type bigint"⟩) ∧
       (∀ s l, jsParseInt s = some l → l < 0 →
          (widgetData st now companyId widgetId (some s) timeRangeQ hierarchyIdQ
              deviceIdQ).1
            = ⟨500, false, some "Failed to fetch widget data", none, none,
                some "LIMIT must not be negative"⟩))) ∧
    (∀ (st : Store) (now : Int) (companyId widgetId : Nat) (timeRangeQ : Option String)
        (hierarchyIdQ deviceIdQ : Option Nat),
      widgetData st now companyId widgetId none timeRangeQ hierarchyIdQ deviceIdQ
        = widgetData st now companyId widgetId (some "200") timeRangeQ hierarchyIdQ
            deviceIdQ) := by
  refine ⟨?_, fun _ _ _ _ _ _ _ => rfl⟩
  intro st now companyId widgetId timeRangeQ hierarchyIdQ deviceIdQ w hfind hne
  have hzero := widgetData_zero_limit st now companyId widgetId timeRangeQ hierarchyIdQ
    deviceIdQ w hfind hne
  refine ⟨?_, ?_, ?_, ?_⟩
  · rw [show (widgetData st now companyId widgetId (some "0") timeRangeQ hierarchyIdQ
        deviceIdQ).1 = (Prod.fst
          (widgetData st now companyId widgetId (some "0") timeRangeQ hierarchyIdQ
            deviceIdQ)) from rfl, hzero]
  · intro data hdat name so hmem
    rw [show (widgetData st now companyId widgetId (some "0") timeRangeQ hierarchyIdQ
        deviceIdQ).1 = (Prod.fst
          (widgetData st now companyId widgetId (some "0") timeRangeQ hierarchyIdQ
            deviceIdQ)) from rfl, hzero] at hdat
    cases Option.some.inj hdat
    rcases mem_foldl_jsSet (fun s : SeriesSpec => s.displayName)
        (fun s => (⟨[], s.unit, s.propertyName⟩ : SeriesOut))
        w.config.seriesConfig [] name so hmem with habs | ⟨s2, _, _, hso⟩
    · cases habs
    · rw [hso]
  · intro s hs
    refine widgetData_error_of_uniform_error st now companyId widgetId (some s) timeRangeQ
      hierarchyIdQ deviceIdQ w hfind hne _ ?_
    intro key
    rw [Option.getD_some, hs]
    exact seriesQuery_none st now companyId w.config.deviceTypeId key (timeRangeQ.getD "24h")
  · intro s l hs hl
    refine widgetData_error_of_uniform_error st now companyId widgetId (some s) timeRangeQ
      hierarchyIdQ deviceIdQ w hfind hne _ ?_
    intro key
    rw [Option.getD_some, hs]
    exact seriesQuery_neg st now companyId w.config.deviceTypeId key (timeRangeQ.getD "24h")
      l hl

/-- C6 amended witness: on the fixture store limit=0 succeeds with an
empty series and the limits -5 and abc fail with 500 responses. -/
theorem c6_amended_limit_handling_witness :
    ((widgetData exStore 1000000 1 10 (some "0") (some "24h") none none).1.success
      = true) ∧
    ((widgetData exStore 1000000 1 10 (some "-5") (some "24h") none none).1
      = ⟨500, false, some "Failed to fetch widget data", none, none,
          some "LIMIT must not be negative"⟩) ∧
    ((widgetData exStore 1000000 1 10 (some "abc") (some "24h") none none).1
      = ⟨500, false, some "Failed to fetch widget data", none, none,
          some "invalid input syntax for type bigint"⟩) :=
  ⟨(c6_amended_limit_handling.1 exStore 1000000 1 10 (some "24h") none none exWidget
      rfl (by decide)).1,
    (c6_amended_limit_handling.1 exStore 1000000 1 10 (some "24h") none none exWidget
      rfl (by decide)).2.2.2 "-5" (-5) (by decide) (by decide),
    (c6_amended_limit_handling.1 exStore 1000000 1 10 (some "24h") none none exWidget
      rfl (by decide)).2.2.1 "abc" rfl⟩

/-- C7 counterexample: a sample whose payload contains the series key with
the non-numeric string value abc is in scope, yet the request fails with a
500 response instead of emitting the point with value 0. -/
theorem c7_counterexample_bad_value_fails :
    hasKey [("ofr", JsonVal.str "abc")] "ofr" = true ∧
    (widgetData exStoreBad 1000000 1 10 (some "200") (some "24h") none none).1
      = ⟨500, false, some "Failed to fetch widget data", none, none,
          some "invalid input syntax for type numeric"⟩ :=
  ⟨rfl, rfl⟩

/-- C7 amended: every emitted point carries the SQL numeric cast of its
row's field value; a JSON null present under the key is coerced to 0 by
COALESCE and a numeric value is emitted as itself; but a present value
that fails the numeric cast is not coerced to 0: it aborts the series
query, hence the whole request. -/
theorem c7_amended_numeric_coercion :
    (∀ (st : Store) (now : Int) (companyId deviceTypeId : Nat) (key tr : String)
        (limitInt : Option Int) (pts : List Point),
      seriesQuery st now companyId deviceTypeId key tr limitInt = .ok pts →
      ∀ p ∈ pts, ∃ dd d, dd ∈ st.device_data ∧ d ∈ st.devices ∧ dd.device_id = d.id ∧
        sqlValue dd.data key = .ok p.value ∧ p.timestamp = dd.created_at) ∧
    (∀ (data : List (String × JsonVal)) (key : String),
      data.find? (fun kv => kv.1 = key) = some (key, JsonVal.null) →
      sqlValue data key = .ok 0) ∧
    (∀ q : Rat, pgCastNumeric (.num q) = .ok (some q)) ∧
    (∀ s : String, pgParseNumeric s = none →
      pgCastNumeric (.str s) = .error "invalid input syntax for type numeric") ∧
    (∀ (st : Store) (now : Int) (companyId deviceTypeId : Nat) (key tr : String) (l : Int),
      ¬ l < 0 →
      ∀ r ∈ (selectedRows st now companyId deviceTypeId key tr).take l.toNat,
      ∀ e, sqlValue r.1.data key = .error e →
      ∃ e2, seriesQuery st now companyId deviceTypeId key tr (some l) = .error e2) := by
  refine ⟨?_, ?_, fun q => rfl, ?_, ?_⟩
  · intro st now companyId deviceTypeId key tr limitInt pts h p hp
    rcases seriesQuery_ok_mem _ _ _ _ _ _ _ _ h p hp with
      ⟨dd, d, hdd, hd, hid, _, _, _, _, hts, _, hval⟩
    exact ⟨dd, d, hdd, hd, hid, hval, hts⟩
  · intro data key hfind
    unfold sqlValue
    rw [hfind]
    rfl
  · intro s hs
    simp only [pgCastNumeric]
    rw [hs]
  · intro st now companyId deviceTypeId key tr l hl r hr e he
    exact seriesQuery_error_of_badRow st now companyId deviceTypeId key tr l hl r hr e he

/-- C7 amended witness: on the fixture store the emitted point's value 7 is
exactly the SQL cast of the stored field value. -/
theorem c7_amended_numeric_coercion_witness :
    ∃ dd d, dd ∈ exStore.device_data ∧ d ∈ exStore.devices ∧ dd.device_id = d.id ∧
      sqlValue dd.data "ofr" = .ok (⟨999000, "D1", 7⟩ : Point).value ∧
      (⟨999000, "D1", 7⟩ : Point).timestamp = dd.created_at :=
  c7_amended_numeric_coercion.1 exStore 1000000 1 1 "ofr" "24h" (some 200)
    [⟨999000, "D1", 7⟩] rfl ⟨999000, "D1", 7⟩ (List.mem_singleton.mpr rfl)

/-- C10: the widget-data response object is keyed by displayName, so its
keys are distinct, a present entry is exactly the output of the last
configured series bearing that displayName, and a name is present exactly
when some configured series bears it. -/
theorem c10_duplicate_display_names (st : Store) (now : Int) (companyId widgetId : Nat)
    (limitQ timeRangeQ : Option String) (hierarchyIdQ deviceIdQ : Option Nat)
    (resp : ApiResponse) (n : Nat) (data : List (String × SeriesOut))
    (cfg : DataSourceConfig)
    (h : widgetData st now companyId widgetId limitQ timeRangeQ hierarchyIdQ deviceIdQ
      = (resp, n))
    (hd : resp.data = some data) (hc : resp.config = some cfg) :
    (data.map Prod.fst).Nodup ∧
    (∀ name so, jsGet data name = some so →
      ∃ s pts, (cfg.seriesConfig.filter (fun s2 => s2.displayName = name)).getLast?
          = some s ∧
        seriesQuery st now companyId cfg.deviceTypeId s.dataSourceProperty
          (timeRangeQ.getD "24h") (jsParseInt (limitQ.getD "200")) = .ok pts ∧
        so = ⟨pts, s.unit, s.propertyName⟩) ∧
    (∀ name, jsGet data name ≠ none ↔
      name ∈ cfg.seriesConfig.map (fun s => s.displayName)) := by
  rcases widgetData_inv st now companyId widgetId limitQ timeRangeQ hierarchyIdQ deviceIdQ
      resp n h with
    ⟨_, hresp, _⟩ | ⟨w, _, hem, hresp, _⟩ | ⟨w, data2, _, _, hfa, hresp⟩ |
    ⟨w, e, _, _, _, hresp⟩
  · rw [hresp] at hd; cases hd
  · rw [hresp] at hd hc
    cases Option.some.inj hd
    cases Option.some.inj hc
    have hnil : w.config.seriesConfig = [] := List.isEmpty_iff.mp hem
    refine ⟨by simp, ?_, ?_⟩
    · intro name so hsome
      cases hsome
    · intro name
      rw [hnil]
      constructor
      · intro hcon
        exact absurd rfl hcon
      · intro hmem
        cases hmem
  · rw [hresp] at hd hc
    cases Option.some.inj hd
    cases Option.some.inj hc
    refine ⟨fetchAll_keys_nodup _ _ _ _ _ _ _ _ _ _ _ hfa (by simp), ?_, ?_⟩
    · intro name so hsome
      rcases fetchAll_ok_lookup _ _ _ _ _ _ _ _ _ _ _ hfa name with
        ⟨s, pts, hlast, hq, hget⟩ | ⟨_, hget⟩
      · rw [hget] at hsome
        exact ⟨s, pts, hlast, hq, (Option.some.inj hsome).symm⟩
      · rw [hget] at hsome
        cases hsome
    · intro name
      rcases fetchAll_ok_lookup _ _ _ _ _ _ _ _ _ _ _ hfa name with
        ⟨s, pts, hlast, hq, hget⟩ | ⟨hempty, hget⟩
      · constructor
        · intro _
          have hs_mem := getLast?_mem hlast
          rcases List.mem_filter.mp hs_mem with ⟨hs_in, hpred⟩
          exact List.mem_map.mpr ⟨s, hs_in, of_decide_eq_true hpred⟩
        · intro _
          rw [hget]
          simp
      · constructor
        · intro hcon
          rw [hget] at hcon
          exact absurd rfl hcon
        · intro hmem
          rcases List.mem_map.mp hmem with ⟨s, hs_in, hname⟩
          have := List.filter_eq_nil_iff.mp hempty s hs_in
          simp only [decide_eq_true_eq] at this
          exact absurd hname this
  · rw [hresp] at hd; cases hd

/-- C10 witness: the fixture widget declares two series both named OFR;
the response holds exactly one OFR entry carrying the data of the
later-configured series (field wfr, value 3). -/
theorem c10_duplicate_display_names_witness :
    ((widgetData exStoreDup 1000000 1 11 (some "200") (some "24h") none none).1.data
      = some [("OFR", ⟨[⟨999000, "D1", 3⟩], "l/min", "Water Flow Rate"⟩)]) ∧
    (([(("OFR" : String),
        (⟨[⟨999000, "D1", 3⟩], "l/min", "Water Flow Rate"⟩ : SeriesOut))].map
        Prod.fst).Nodup) ∧
    (∃ s pts,
      (((⟨1, [⟨"OFR", "ofr", "l/min", "Oil Flow Rate"⟩,
          ⟨"OFR", "wfr", "l/min", "Water Flow Rate"⟩]⟩ :
        DataSourceConfig)).seriesConfig.filter
          (fun s2 => s2.displayName = "OFR")).getLast? = some s ∧
      seriesQuery exStoreDup 1000000 1 1 s.dataSourceProperty "24h"
        (jsParseInt "200") = .ok pts ∧
      (⟨[⟨999000, "D1", 3⟩], "l/min", "Water Flow Rate"⟩ : SeriesOut)
        = ⟨pts, s.unit, s.propertyName⟩) :=
  ⟨rfl,
    (c10_duplicate_display_names exStoreDup 1000000 1 11 (some "200") (some "24h")
      none none
      ⟨200, true, none,
        some [("OFR", ⟨[⟨999000, "D1", 3⟩], "l/min", "Water Flow Rate"⟩)],
        some ⟨1, [⟨"OFR", "ofr", "l/min", "Oil Flow Rate"⟩,
          ⟨"OFR", "wfr", "l/min", "Water Flow Rate"⟩]⟩, none⟩ 2
      [("OFR", ⟨[⟨999000, "D1", 3⟩], "l/min", "Water Flow Rate"⟩)]
      ⟨1, [⟨"OFR", "ofr", "l/min", "Oil Flow Rate"⟩,
        ⟨"OFR", "wfr", "l/min", "Water Flow Rate"⟩]⟩ rfl rfl rfl).1,
    (c10_duplicate_display_names exStoreDup 1000000 1 11 (some "200") (some "24h")
      none none
      ⟨200, true, none,
        some [("OFR", ⟨[⟨999000, "D1", 3⟩], "l/min", "Water Flow Rate"⟩)],
        some ⟨1, [⟨"OFR", "ofr", "l/min", "Oil Flow Rate"⟩,
          ⟨"OFR", "wfr", "l/min", "Water Flow Rate"⟩]⟩, none⟩ 2
      [("OFR", ⟨[⟨999000, "D1", 3⟩], "l/min", "Water Flow Rate"⟩)]
      ⟨1, [⟨"OFR", "ofr", "l/min", "Oil Flow Rate"⟩,
        ⟨"OFR", "wfr", "l/min", "Water Flow Rate"⟩]⟩ rfl rfl rfl).2.1
      "OFR" ⟨[⟨999000, "D1", 3⟩], "l/min", "Water Flow Rate"⟩ rfl⟩

/-- C1: the widget-data handler never reads the hierarchyId parameter. At
the failing input the store's only device sits on hierarchy node 99, node
99 is outside the subtree of the requested node 5, yet the request with
hierarchyId=5 still returns that device's sample - contradicting the
claimed subtree restriction (and the repo's own implementation guide). -/
theorem c1_hierarchy_filter_ignored :
    (exStore.devices.map Device.hierarchy_id = [some 99]) ∧
    ((resolveSubtree exStore.hierarchy 5).contains 99 = false) ∧
    ((resolveSubtree exStore.hierarchy 5).contains 5 = true) ∧
    ((widgetData exStore 1000000 1 10 (some "200") (some "24h") (some 5) none).1.data
      = some [("OFR", ⟨[⟨999000, "D1", 7⟩], "l/min", "Oil Flow Rate"⟩)]) ∧
    (∀ hierarchyIdQ deviceIdQ hierarchyIdQ2 deviceIdQ2 : Option Nat,
      ∀ (st : Store) (now : Int) (companyId widgetId : Nat)
        (limitQ timeRangeQ : Option String),
      widgetData st now companyId widgetId limitQ timeRangeQ hierarchyIdQ deviceIdQ
        = widgetData st now companyId widgetId limitQ timeRangeQ hierarchyIdQ2
            deviceIdQ2) :=
  ⟨rfl, by decide, by decide, rfl, fun _ _ _ _ _ _ _ _ _ _ => rfl⟩

end Dash
